import Mathlib

/-!
Verification of the swarm feedback-loop / adaptation engine of this
repository (the `SwarmFeedbackLoops` class).  The definitions below are a
shallow embedding of that class: JavaScript numbers are modelled as
rationals (every numeric literal of the source is a finite decimal, written
here as an exact fraction), JS objects and `Map`s are modelled as
association lists in insertion order, and a function that can `throw` is
modelled with `Except`.  `Math.random()` draws are passed in explicitly as
oracle arguments, and `Date.now()` readings are passed in as explicit
timestamps, so that every definition is a pure, executable function.

Where rational division differs from JS float division (division by zero
yields `0` in `ℚ` and `±Infinity`/`NaN` in JS) the divergence is noted at
the definition; every theorem below is settled on inputs where the two
agree.
-/

namespace SwarmFeedbackLoops

/-- The `this.realTimeMetrics` gauges of the class. -/
structure RealTimeMetrics where
  responseTime : ℚ
  throughput : ℚ
  errorRate : ℚ
  adaptationRate : ℚ
  learningVelocity : ℚ
deriving Repr, DecidableEq

/-- `getMetricValue(metricName)`: each branch of the source's
`metricCalculators` table uses at most one `Math.random()` draw, passed
here as `r`.  An unregistered name throws (`Unknown metric`), modelled by
`Except.error`. -/
def getMetricValue (rtm : RealTimeMetrics) (r : ℚ) : String → Except String ℚ
  | "response_time" => .ok (rtm.responseTime + r * 500)
  | "throughput" => .ok (rtm.throughput + r * 20)
  | "error_rate" => .ok (max 0 (rtm.errorRate + (r * (2/100) - 1/100)))
  | "learning_velocity" => .ok (r * (3/10) + 7/10)
  | "pattern_recognition" => .ok (r * (2/10) + 8/10)
  | "adaptation_success" => .ok (r * (4/10) + 6/10)
  | "task_distribution" => .ok (r * (3/10) + 7/10)
  | "agent_efficiency" => .ok (r * (25/100) + 75/100)
  | "communication_latency" => .ok (r * 300 + 200)
  | "memory_utilization" => .ok (r * (2/10) + 6/10)
  | "retrieval_accuracy" => .ok (r * (1/10) + 9/10)
  | "storage_efficiency" => .ok (r * (3/10) + 7/10)
  | "idea_quality" => .ok (r * (3/10) + 7/10)
  | "implementation_success" => .ok (r * (2/10) + 8/10)
  | "user_satisfaction" => .ok (r * (15/100) + 85/100)
  | name => .error ("Unknown metric: " ++ name)

/-- The metric names for which `getMetricValue` has a calculator (and
hence does not throw). -/
def knownMetrics : List String :=
  ["response_time", "throughput", "error_rate",
   "learning_velocity", "pattern_recognition", "adaptation_success",
   "task_distribution", "agent_efficiency", "communication_latency",
   "memory_utilization", "retrieval_accuracy", "storage_efficiency",
   "idea_quality", "implementation_success", "user_satisfaction"]

/-- `collectMetrics(metricNames)`: samples every configured metric; a
throwing sample is caught and recorded as `null` (`none`), and the
collection continues with the remaining metrics. -/
def collectMetrics (rtm : RealTimeMetrics) (rand : String → ℚ)
    (metricNames : List String) : List (String × Option ℚ) :=
  metricNames.map (fun n => (n, (getMetricValue rtm (rand n) n).toOption))

/-- `isHigherBetterMetric(metricName)`. -/
def isHigherBetterMetric (metricName : String) : Bool :=
  ["throughput", "learning_velocity", "pattern_recognition", "adaptation_success",
   "task_distribution", "agent_efficiency", "memory_utilization", "retrieval_accuracy",
   "storage_efficiency", "idea_quality", "implementation_success", "user_satisfaction"
  ].contains metricName

/-- `calculateSeverity(value, threshold, higherIsBetter)`.  (`0.5` and
`0.8` are the exact rationals `1/2` and `4/5`.)  Division by zero cannot
occur at its call sites: severity is only computed for violations, where
the denominator is strictly positive whenever the threshold is positive
and the value nonnegative. -/
def calculateSeverity (value threshold : ℚ) (higherIsBetter : Bool) : String :=
  let ratio := if higherIsBetter then value / threshold else threshold / value
  if ratio < 1/2 then "high" else if ratio < 4/5 then "medium" else "low"

/-- One entry of `analysis.issues` as pushed by `analyzeMetrics`. -/
structure Issue where
  metric : String
  value : ℚ
  threshold : ℚ
  severity : String
deriving Repr, DecidableEq

/-- The per-metric score computed inline in `analyzeMetrics`:
`value >= threshold ? 1 : value / threshold` for higher-is-better and
`value <= threshold ? 1 : threshold / value` otherwise. -/
def metricScore (higherIsBetter : Bool) (value threshold : ℚ) : ℚ :=
  if higherIsBetter then (if value ≥ threshold then 1 else value / threshold)
  else (if value ≤ threshold then 1 else threshold / value)

/-- The violation test of `analyzeMetrics`: an issue is pushed when
`value < threshold` (higher-is-better) resp. `value > threshold`. -/
def isViolation (higherIsBetter : Bool) (value threshold : ℚ) : Bool :=
  if higherIsBetter then decide (value < threshold) else decide (value > threshold)

/-- The accumulation pass of `analyzeMetrics` over `Object.entries(metrics)`:
returns `(totalScore, metricCount, issues)`.  Entries whose value is `null`
or whose metric has no configured threshold are skipped.  The source's
`for`-loop accumulates left to right; this structural recursion adds the
head entry's contribution to that of the tail, which yields the same total
(addition is commutative) and the same issue order. -/
def analyzeScan (thresholds : List (String × ℚ)) :
    List (String × Option ℚ) → ℚ × Nat × List Issue
  | [] => (0, 0, [])
  | (metricName, value?) :: rest =>
    let acc := analyzeScan thresholds rest
    match value? with
    | none => acc
    | some value =>
      match List.lookup metricName thresholds with
      | none => acc
      | some threshold =>
        let hib := isHigherBetterMetric metricName
        let entryIssues : List Issue :=
          if isViolation hib value threshold then
            [⟨metricName, value, threshold, calculateSeverity value threshold hib⟩]
          else []
        (metricScore hib value threshold + acc.1, acc.2.1 + 1, entryIssues ++ acc.2.2)

/-- One entry of `analysis.recommendations` (`generateRecommendations`).
The source stores a formatted human-readable string; only its structured
content is modelled. -/
structure Recommendation where
  rtype : String
  metric : Option String
  severity : Option String
deriving Repr, DecidableEq

/-- `generateRecommendations(loop, analysis)`: one issue-resolution entry
per issue, plus a general-improvement entry when the score is below `0.8`.
(The `loop` argument of the source is unused by the function body.) -/
def generateRecommendations (issues : List Issue) (score : ℚ) : List Recommendation :=
  issues.map (fun i => ⟨"issue_resolution", some i.metric, some i.severity⟩) ++
    (if score < 8/10 then [⟨"general_improvement", none, none⟩] else [])

/-- `analysis` as returned by `analyzeMetrics`.  (The source also
initialises an `improvements: []` field that is never written or read
anywhere; it is omitted.) -/
structure Analysis where
  overall : String
  issues : List Issue
  score : ℚ
  recommendations : List Recommendation
deriving Repr, DecidableEq

/-- `analyzeMetrics(loop, metrics)`.  The source reads the thresholds via
`this.performanceThresholds.get(loop.name)`; that lookup is performed by
the caller here and the threshold table is passed in directly. -/
def analyzeMetrics (thresholds : List (String × ℚ))
    (metrics : List (String × Option ℚ)) : Analysis :=
  let acc := analyzeScan thresholds metrics
  let score := if acc.2.1 > 0 then acc.1 / (acc.2.1 : ℚ) else 0
  let overall := if score ≥ 9/10 then "excellent" else if score ≥ 7/10 then "good"
    else if score ≥ 1/2 then "fair" else "poor"
  { overall := overall, issues := acc.2.2, score := score,
    recommendations := generateRecommendations acc.2.2 score }

/-- The list of per-metric scores computed by one evaluation: one score per
sample that is non-`null` and has a configured threshold. -/
def perMetricScores (thresholds : List (String × ℚ))
    (metrics : List (String × Option ℚ)) : List ℚ :=
  metrics.filterMap (fun e => match e.2, List.lookup e.1 thresholds with
    | some v, some t => some (metricScore (isHigherBetterMetric e.1) v t)
    | _, _ => none)

/-! ### Basic lemmas about the per-metric score -/

theorem metricScore_eq_min_of_higher {v limit : ℚ} (hl : 0 < limit) :
    metricScore true v limit = min 1 (v / limit) := by
  unfold metricScore
  by_cases h : v ≥ limit
  · have : (1 : ℚ) ≤ v / limit := (one_le_div hl).mpr h
    simp [h, min_eq_left this]
  · have hlt : v / limit < 1 := (div_lt_one hl).mpr (lt_of_not_ge h)
    simp [h, min_eq_right hlt.le]

theorem metricScore_eq_min_of_lower {v limit : ℚ} (hv : 0 ≤ v) (hl : 0 < limit) :
    metricScore false v limit = if v = 0 then 1 else min 1 (limit / v) := by
  unfold metricScore
  by_cases hz : v = 0
  · simp [hz, hl.le]
  · have hv' : 0 < v := lt_of_le_of_ne hv (Ne.symm hz)
    by_cases h : v ≤ limit
    · have : (1 : ℚ) ≤ limit / v := (one_le_div hv').mpr h
      simp [h, hz, min_eq_left this]
    · have hlt : limit / v < 1 := (div_lt_one hv').mpr (lt_of_not_ge h)
      simp [h, hz, min_eq_right hlt.le]

theorem metricScore_nonneg {hib : Bool} {v limit : ℚ} (hv : 0 ≤ v) (hl : 0 < limit) :
    0 ≤ metricScore hib v limit := by
  unfold metricScore
  cases hib <;> simp only [Bool.false_eq_true, if_false, if_true]
  · split
    · exact zero_le_one
    · exact div_nonneg hl.le (le_trans hl.le (le_of_not_le (by assumption)))
  · split
    · exact zero_le_one
    · exact div_nonneg hv hl.le

theorem metricScore_le_one {hib : Bool} {v limit : ℚ} (hv : 0 ≤ v) (hl : 0 < limit) :
    metricScore hib v limit ≤ 1 := by
  unfold metricScore
  cases hib <;> simp only [Bool.false_eq_true, if_false, if_true]
  · split
    · exact le_refl 1
    · have hv' : 0 < v := lt_of_lt_of_le hl (le_of_not_le (by assumption))
      exact ((div_lt_one hv').mpr (lt_of_not_ge (by assumption))).le
  · split
    · exact le_refl 1
    · exact ((div_lt_one hl).mpr (lt_of_not_ge (by assumption))).le

theorem isViolation_iff_lt_one {hib : Bool} {v limit : ℚ} (hv : 0 ≤ v) (hl : 0 < limit) :
    isViolation hib v limit = true ↔ metricScore hib v limit < 1 := by
  unfold isViolation metricScore
  cases hib
  · simp only [Bool.false_eq_true, if_false, decide_eq_true_eq]
    constructor
    · intro h
      have hv' : 0 < v := lt_trans hl h
      simp [not_le.mpr h, (div_lt_one hv').mpr h]
    · intro h
      by_contra hc
      push_neg at hc
      simp [le_of_lt, hc] at h
  · simp only [if_true, decide_eq_true_eq]
    constructor
    · intro h
      simp [not_le.mpr h, (div_lt_one hl).mpr h]
    · intro h
      by_contra hc
      push_neg at hc
      simp [hc] at h

theorem calculateSeverity_eq_of_violation {hib : Bool} {v limit : ℚ}
    (hviol : isViolation hib v limit = true) :
    calculateSeverity v limit hib =
      (if metricScore hib v limit < 1/2 then "high"
       else if metricScore hib v limit < 4/5 then "medium" else "low") := by
  unfold calculateSeverity metricScore
  unfold isViolation at hviol
  cases hib
  · simp only [Bool.false_eq_true, if_false, decide_eq_true_eq] at hviol ⊢
    simp [not_le.mpr hviol]
  · simp only [if_true, decide_eq_true_eq] at hviol ⊢
    simp [not_le.mpr hviol]

theorem lookup_mem {α β : Type} [BEq α] [LawfulBEq α] {l : List (α × β)} {k : α} {v : β}
    (h : List.lookup k l = some v) : (k, v) ∈ l := by
  induction l with
  | nil => simp [List.lookup] at h
  | cons e rest ih =>
    rcases e with ⟨a, b⟩
    rw [List.lookup] at h
    cases hk : k == a with
    | true =>
      have hk' : k = a := by simpa using hk
      rw [hk] at h
      simp at h
      subst hk'
      subst h
      exact List.mem_cons_self _ _
    | false =>
      rw [hk] at h
      simp at h
      exact List.mem_cons_of_mem _ (ih h)

/-- The accumulator of `analyzeMetrics` holds exactly the sum and the count
of the per-metric scores. -/
theorem analyzeScan_eq_scores (thresholds : List (String × ℚ)) :
    ∀ ms, (analyzeScan thresholds ms).1 = (perMetricScores thresholds ms).sum ∧
      (analyzeScan thresholds ms).2.1 = (perMetricScores thresholds ms).length
  | [] => by simp [analyzeScan, perMetricScores]
  | (n, v?) :: rest => by
    obtain ⟨ih1, ih2⟩ := analyzeScan_eq_scores thresholds rest
    cases v? with
    | none => simpa [analyzeScan, perMetricScores] using ⟨ih1, ih2⟩
    | some v =>
      cases h : List.lookup n thresholds with
      | none => simpa [analyzeScan, perMetricScores, h] using ⟨ih1, ih2⟩
      | some t =>
        refine ⟨?_, ?_⟩ <;>
          simp [analyzeScan, perMetricScores, h, ih1, ih2, List.filterMap_cons]

theorem perMetricScores_bounds {thresholds : List (String × ℚ)}
    {ms : List (String × Option ℚ)}
    (hts : ∀ p ∈ thresholds, 0 < p.2)
    (hms : ∀ p ∈ ms, ∀ v, p.2 = some v → 0 ≤ v) :
    ∀ x ∈ perMetricScores thresholds ms, 0 ≤ x ∧ x ≤ 1 := by
  intro x hx
  rw [perMetricScores, List.mem_filterMap] at hx
  obtain ⟨⟨n, v?⟩, hmem, heq⟩ := hx
  cases v? with
  | none => simp at heq
  | some v =>
    cases h : List.lookup n thresholds with
    | none => simp [h] at heq
    | some t =>
      simp [h] at heq
      have hv : 0 ≤ v := hms _ hmem v rfl
      have ht : 0 < t := hts _ (lookup_mem h)
      exact heq ▸ ⟨metricScore_nonneg hv ht, metricScore_le_one hv ht⟩

/-- Evaluating a single sample against its single threshold: the analysis
score is exactly that metric's score. -/
theorem analyzeMetrics_singleton (name : String) (v limit : ℚ) :
    (analyzeMetrics [(name, limit)] [(name, some v)]).score =
      metricScore (isHigherBetterMetric name) v limit ∧
    (analyzeMetrics [(name, limit)] [(name, some v)]).issues =
      (if isViolation (isHigherBetterMetric name) v limit then
        [⟨name, v, limit, calculateSeverity v limit (isHigherBetterMetric name)⟩]
       else []) := by
  constructor <;> simp [analyzeMetrics, analyzeScan, List.lookup]

/-- C1: for a metric with a collected sample and a configured threshold,
`analyzeMetrics` scores it `min(1, value/limit)` when higher-is-better and
`min(1, limit/value)` when lower-is-better (value `0` under lower-is-better
scores `1`), reports a violation exactly when the score is below `1`, and
grades a violation `high` below `0.5`, `medium` in `[0.5, 0.8)` and `low`
otherwise. -/
theorem c1_per_metric_score_and_violation (name : String) (v limit : ℚ)
    (hv : 0 ≤ v) (hl : 0 < limit) :
    (analyzeMetrics [(name, limit)] [(name, some v)]).score =
      (if isHigherBetterMetric name then min 1 (v / limit)
       else if v = 0 then 1 else min 1 (limit / v)) ∧
    ((analyzeMetrics [(name, limit)] [(name, some v)]).issues ≠ [] ↔
      (analyzeMetrics [(name, limit)] [(name, some v)]).score < 1) ∧
    ((analyzeMetrics [(name, limit)] [(name, some v)]).score < 1 →
      (analyzeMetrics [(name, limit)] [(name, some v)]).issues =
        [⟨name, v, limit,
          if (analyzeMetrics [(name, limit)] [(name, some v)]).score < 1/2 then "high"
          else if (analyzeMetrics [(name, limit)] [(name, some v)]).score < 4/5 then "medium"
          else "low"⟩]) := by
  obtain ⟨hscore, hissues⟩ := analyzeMetrics_singleton name v limit
  refine ⟨?_, ?_, ?_⟩
  · rw [hscore]
    cases hhib : isHigherBetterMetric name with
    | true => simp [metricScore_eq_min_of_higher hl]
    | false => simp [metricScore_eq_min_of_lower hv hl]
  · rw [hscore, hissues]
    by_cases hviol : isViolation (isHigherBetterMetric name) v limit
    · simp [hviol, (isViolation_iff_lt_one hv hl).mp hviol]
    · have := (@isViolation_iff_lt_one (isHigherBetterMetric name) v limit hv hl).not
      simp [hviol, not_lt.mp (this.mp (by simp [hviol]))]
  · intro hlt
    rw [hscore] at hlt
    have hviol : isViolation (isHigherBetterMetric name) v limit = true :=
      (isViolation_iff_lt_one hv hl).mpr hlt
    rw [hissues, hscore]
    simp [hviol, calculateSeverity_eq_of_violation hviol]

/-- Witness for C1 at `throughput`, value `300`, limit `1000`:
a higher-is-better metric scoring `0.3`, hence one `high` violation. -/
theorem c1_per_metric_score_and_violation_witness :
    ((0 : ℚ) ≤ 300 ∧ (0 : ℚ) < 1000) ∧
    ((analyzeMetrics [("throughput", 1000)] [("throughput", some 300)]).score =
      (if isHigherBetterMetric "throughput" then min 1 ((300 : ℚ) / 1000)
       else if (300 : ℚ) = 0 then 1 else min 1 (1000 / 300)) ∧
    ((analyzeMetrics [("throughput", 1000)] [("throughput", some 300)]).issues ≠ [] ↔
      (analyzeMetrics [("throughput", 1000)] [("throughput", some 300)]).score < 1) ∧
    ((analyzeMetrics [("throughput", 1000)] [("throughput", some 300)]).score < 1 →
      (analyzeMetrics [("throughput", 1000)] [("throughput", some 300)]).issues =
        [⟨"throughput", 300, 1000,
          if (analyzeMetrics [("throughput", 1000)] [("throughput", some 300)]).score < 1/2
          then "high"
          else if (analyzeMetrics [("throughput", 1000)] [("throughput", some 300)]).score < 4/5
          then "medium" else "low"⟩])) :=
  ⟨⟨by norm_num, by norm_num⟩,
    c1_per_metric_score_and_violation "throughput" 300 1000 (by norm_num) (by norm_num)⟩

/-- C2: the overall score of one evaluation is the arithmetic mean of the
computed per-metric scores (`0` when no metric matched), it lies in
`[0, 1]`, and the status buckets are `excellent` at `≥ 0.9`, `good` at
`≥ 0.7`, `fair` at `≥ 0.5` and `poor` below. -/
theorem c2_overall_score_mean_bounds_status (thresholds : List (String × ℚ))
    (ms : List (String × Option ℚ))
    (hts : ∀ p ∈ thresholds, 0 < p.2)
    (hms : ∀ p ∈ ms, ∀ v, p.2 = some v → 0 ≤ v) :
    (analyzeMetrics thresholds ms).score =
      (if perMetricScores thresholds ms = [] then 0
       else (perMetricScores thresholds ms).sum / (perMetricScores thresholds ms).length) ∧
    0 ≤ (analyzeMetrics thresholds ms).score ∧
    (analyzeMetrics thresholds ms).score ≤ 1 ∧
    (analyzeMetrics thresholds ms).overall =
      (if (analyzeMetrics thresholds ms).score ≥ 9/10 then "excellent"
       else if (analyzeMetrics thresholds ms).score ≥ 7/10 then "good"
       else if (analyzeMetrics thresholds ms).score ≥ 1/2 then "fair" else "poor") := by
  obtain ⟨hsum, hlen⟩ := analyzeScan_eq_scores thresholds ms
  have hbounds := perMetricScores_bounds hts hms
  set L := perMetricScores thresholds ms with hL
  have hscore : (analyzeMetrics thresholds ms).score =
      (if L = [] then 0 else L.sum / L.length) := by
    rw [analyzeMetrics]
    simp only [hsum, hlen]
    by_cases hnil : L = []
    · simp [hnil]
    · have : 0 < L.length := List.length_pos.mpr hnil
      simp [hnil, this]
  have hmean01 : 0 ≤ (if L = [] then 0 else L.sum / L.length : ℚ) ∧
      (if L = [] then 0 else L.sum / L.length : ℚ) ≤ 1 := by
    by_cases hnil : L = []
    · simp [hnil]
    · have hlen0 : 0 < (L.length : ℚ) := by
        exact_mod_cast List.length_pos.mpr hnil
      have hsum0 : 0 ≤ L.sum := List.sum_nonneg (fun x hx => (hbounds x hx).1)
      have hsum1 : L.sum ≤ (L.length : ℚ) := by
        have := List.sum_le_card_nsmul L 1 (fun x hx => (hbounds x hx).2)
        simpa using this
      constructor
      · simp [hnil]
        exact div_nonneg hsum0 hlen0.le
      · simp [hnil]
        rw [div_le_one hlen0]
        exact hsum1
  refine ⟨hscore, hscore ▸ hmean01.1, hscore ▸ hmean01.2, ?_⟩
  rw [analyzeMetrics]

/-- Witness for C2: two matched samples (`response_time = 500` within its
limit, `throughput = 5` at half its limit) and one absent metric give mean
score `3/4` and status `good`. -/
theorem c2_overall_score_mean_bounds_status_witness :
    ((∀ p ∈ [("response_time", (1000 : ℚ)), ("throughput", 10)], 0 < p.2) ∧
     (∀ p ∈ [("response_time", some (500 : ℚ)), ("throughput", some 5), ("error_rate", none)],
        ∀ v, p.2 = some v → 0 ≤ v)) ∧
    ((analyzeMetrics [("response_time", 1000), ("throughput", 10)]
        [("response_time", some 500), ("throughput", some 5), ("error_rate", none)]).score =
      (if perMetricScores [("response_time", 1000), ("throughput", 10)]
          [("response_time", some 500), ("throughput", some 5), ("error_rate", none)] = [] then 0
       else (perMetricScores [("response_time", 1000), ("throughput", 10)]
          [("response_time", some 500), ("throughput", some 5), ("error_rate", none)]).sum /
         (perMetricScores [("response_time", 1000), ("throughput", 10)]
          [("response_time", some 500), ("throughput", some 5), ("error_rate", none)]).length) ∧
    0 ≤ (analyzeMetrics [("response_time", 1000), ("throughput", 10)]
        [("response_time", some 500), ("throughput", some 5), ("error_rate", none)]).score ∧
    (analyzeMetrics [("response_time", 1000), ("throughput", 10)]
        [("response_time", some 500), ("throughput", some 5), ("error_rate", none)]).score ≤ 1 ∧
    (analyzeMetrics [("response_time", 1000), ("throughput", 10)]
        [("response_time", some 500), ("throughput", some 5), ("error_rate", none)]).overall =
      (if (analyzeMetrics [("response_time", 1000), ("throughput", 10)]
        [("response_time", some 500), ("throughput", some 5), ("error_rate", none)]).score ≥ 9/10
       then "excellent"
       else if (analyzeMetrics [("response_time", 1000), ("throughput", 10)]
        [("response_time", some 500), ("throughput", some 5), ("error_rate", none)]).score ≥ 7/10
       then "good"
       else if (analyzeMetrics [("response_time", 1000), ("throughput", 10)]
        [("response_time", some 500), ("throughput", some 5), ("error_rate", none)]).score ≥ 1/2
       then "fair" else "poor")) :=
  ⟨⟨by decide, by decide⟩,
    c2_overall_score_mean_bounds_status _ _ (by decide) (by decide)⟩

/-- Counterexample to C3: for threshold `{response_time: 1000}`
(lower-is-better) and the single sample `{response_time: 2000}` the
analysis status is `fair` (score `0.5` falls in the `≥ 0.5` bucket), not
`poor` as the claim states. -/
theorem c3_counterexample_status_not_poor :
    (analyzeMetrics [("response_time", 1000)] [("response_time", some 2000)]).overall ≠ "poor" ∧
    (analyzeMetrics [("response_time", 1000)] [("response_time", some 2000)]).overall = "fair" := by
  have hhib : isHigherBetterMetric "response_time" = false := by decide
  constructor <;>
    (norm_num [analyzeMetrics, analyzeScan, List.lookup, metricScore, isViolation,
      calculateSeverity, hhib]
     try decide)

/-- C3 (amended): that input yields overall score `0.5`, exactly one
violation of severity `medium`, and status `fair`. -/
theorem c3_amended_latency_scenario :
    (analyzeMetrics [("response_time", 1000)] [("response_time", some 2000)]).score = 1/2 ∧
    (analyzeMetrics [("response_time", 1000)] [("response_time", some 2000)]).issues =
      [⟨"response_time", 2000, 1000, "medium"⟩] ∧
    (analyzeMetrics [("response_time", 1000)] [("response_time", some 2000)]).overall = "fair" := by
  have hhib : isHigherBetterMetric "response_time" = false := by decide
  refine ⟨?_, ?_, ?_⟩ <;>
    norm_num [analyzeMetrics, analyzeScan, List.lookup, metricScore, isViolation,
      calculateSeverity, hhib]

/-! ### Loop state, adaptation catalogue and the cycle body -/

/-- JS `Map.prototype.set` on an association list kept in insertion order:
replaces the value in place when the key is present, appends otherwise. -/
def assocSet {α β : Type} [BEq α] : List (α × β) → α → β → List (α × β)
  | [], k, v => [(k, v)]
  | e :: rest, k, v => if e.1 == k then (k, v) :: rest else e :: assocSet rest k v

/-- One entry of `adaptation.strategies`. -/
structure Strategy where
  name : String
  target : String
  severity : String
  expectedImprovement : ℚ
deriving Repr, DecidableEq

/-- The `baseImpact` table of `estimateStrategyImpact`. -/
def baseImpact : List (String × ℚ) :=
  [("optimize_response_time", 2/10), ("increase_parallel_processing", 15/100),
   ("reduce_error_rate", 25/100), ("enhance_pattern_recognition", 1/10),
   ("accelerate_learning", 15/100), ("improve_task_distribution", 1/10),
   ("enhance_communication", 5/100), ("optimize_memory_usage", 1/10),
   ("improve_retrieval", 15/100)]

/-- `estimateStrategyImpact(strategyName, issue)`. -/
def estimateStrategyImpact (strategyName : String) (issue : Issue) : ℚ :=
  let impact := (List.lookup strategyName baseImpact).getD (5/100)
  let severityMultiplier : ℚ :=
    if issue.severity == "high" then 3/2
    else if issue.severity == "medium" then 6/5 else 1
  impact * severityMultiplier

/-- The `strategyMap` table of `generateStrategiesForIssue`. -/
def strategyMap : List (String × List (String × List String)) :=
  [("performance_optimization",
     [("response_time", ["optimize_response_time", "increase_parallel_processing"]),
      ("throughput", ["increase_parallel_processing", "optimize_resource_allocation"]),
      ("error_rate", ["reduce_error_rate", "improve_error_handling"])]),
   ("learning_optimization",
     [("learning_velocity", ["accelerate_learning", "optimize_algorithms"]),
      ("pattern_recognition", ["enhance_pattern_recognition", "improve_data_quality"])]),
   ("coordination_optimization",
     [("task_distribution", ["improve_task_distribution", "enhance_load_balancing"]),
      ("communication_latency", ["enhance_communication", "optimize_protocols"])]),
   ("memory_optimization",
     [("memory_utilization", ["optimize_memory_usage", "improve_garbage_collection"]),
      ("retrieval_accuracy", ["improve_retrieval", "enhance_indexing"])]),
   ("innovation_enhancement",
     [("idea_quality", ["enhance_creativity", "improve_brainstorming"]),
      ("implementation_success", ["improve_implementation", "enhance_testing"])])]

/-- `generateStrategiesForIssue(issue, adaptationType)`:
`strategyMap[adaptationType]?.[issue.metric] || []`, each name wrapped into
a strategy record. -/
def generateStrategiesForIssue (issue : Issue) (adaptationType : String) : List Strategy :=
  let names := ((List.lookup adaptationType strategyMap).bind
    (fun m => List.lookup issue.metric m)).getD []
  names.map (fun n => ⟨n, issue.metric, issue.severity, estimateStrategyImpact n issue⟩)

/-- The `generalStrategies` table of `generateGeneralStrategies`. -/
def generalStrategyTable : List (String × List String) :=
  [("performance_optimization", ["general_performance_tuning"]),
   ("learning_optimization", ["enhance_learning_algorithms"]),
   ("coordination_optimization", ["improve_coordination_protocols"]),
   ("memory_optimization", ["optimize_memory_management"]),
   ("innovation_enhancement", ["enhance_innovation_processes"])]

/-- `generateGeneralStrategies(adaptationType, analysis)` (the `analysis`
argument of the source is unused by the function body). -/
def generateGeneralStrategies (adaptationType : String) : List Strategy :=
  ((List.lookup adaptationType generalStrategyTable).getD []).map
    (fun n => ⟨n, "general", "medium", 1/10⟩)

/-- `calculateAdaptationPriority(analysis)`. -/
def calculateAdaptationPriority (analysis : Analysis) : String :=
  if analysis.score < 1/2 then "critical"
  else if analysis.score < 7/10 then "high"
  else if analysis.score < 85/100 then "medium" else "low"

/-- `estimateAdaptationImpact(analysis)`. -/
def estimateAdaptationImpact (analysis : Analysis) : ℚ :=
  min (3/10) ((1 - analysis.score) * (1/2))

/-- The adaptation object built by `generateAdaptation`. -/
structure Adaptation where
  type : String
  target : String
  issues : List Issue
  strategies : List Strategy
  priority : String
  expectedImpact : ℚ
  timestamp : Nat
deriving Repr, DecidableEq

/-- One entry of `loop.adaptations` as pushed by `applyAdaptation`. -/
structure AdaptationRecord where
  adaptation : Adaptation
  timestamp : Nat
  successRate : ℚ
  strategiesExecuted : Nat
  totalStrategies : Nat
deriving Repr, DecidableEq

/-- `loop.performance`. -/
structure LoopPerformance where
  averageExecutionTime : ℚ
  successRate : ℚ
  improvementRate : ℚ
deriving Repr, DecidableEq

/-- The configuration object passed to `createFeedbackLoop`. -/
structure LoopConfig where
  metrics : List String
  interval : Nat
  threshold : List (String × ℚ)
  adaptation : String
  priority : String
deriving Repr, DecidableEq

/-- The loop object built by `createFeedbackLoop`, with its mutable cycle
state.  `loop.metrics` is the JS `Map` from sampling timestamp to the
collected sample set; `intervalId` is the timer handle installed by
`startLoop` (absent while no timer is scheduled). -/
structure Loop where
  name : String
  config : LoopConfig
  state : String
  intervalId : Option Nat
  lastExecution : Option Nat
  executionCount : Nat
  improvementCount : Nat
  metrics : List (Nat × List (String × Option ℚ))
  adaptations : List AdaptationRecord
  performance : LoopPerformance
deriving Repr, DecidableEq

/-- The loop object literal of `createFeedbackLoop(name, config)`. -/
def createLoopObject (name : String) (config : LoopConfig) : Loop :=
  { name := name, config := config, state := "inactive", intervalId := none,
    lastExecution := none, executionCount := 0, improvementCount := 0,
    metrics := [], adaptations := [],
    performance := ⟨0, 0, 0⟩ }

/-- Insertion into a list sorted by descending timestamp (helper for
`getRecentMetrics`). -/
def insertDesc (x : Nat × List (String × Option ℚ)) :
    List (Nat × List (String × Option ℚ)) → List (Nat × List (String × Option ℚ))
  | [] => [x]
  | y :: ys => if y.1 ≥ x.1 then y :: insertDesc x ys else x :: y :: ys

/-- Sort by descending timestamp; models `Array.sort((a, b) => b[0] - a[0])`
in `getRecentMetrics`.  The keys of `loop.metrics` are `Map` keys and hence
distinct, so comparator stability is immaterial. -/
def sortByTimestampDesc :
    List (Nat × List (String × Option ℚ)) → List (Nat × List (String × Option ℚ))
  | [] => []
  | x :: xs => insertDesc x (sortByTimestampDesc xs)

/-- `getRecentMetrics(loop, count)`: the `count` most recent stored sample
sets, most recent first. -/
def getRecentMetrics (loop : Loop) (count : Nat) :
    List (Nat × List (String × Option ℚ)) :=
  (sortByTimestampDesc loop.metrics).take count

/-- `calculateAverageScore(metrics)`: the mean of the raw non-`null`
sample values (not of their normalized scores). -/
def calculateAverageScore (metrics : List (String × Option ℚ)) : ℚ :=
  let values := metrics.filterMap (fun e => e.2)
  if values.length > 0 then values.sum / (values.length : ℚ) else 0

/-- `calculateTrend(recentMetrics)`: relative change between the average
raw value of the oldest and the newest of the handed-in sample sets.
Rational division by zero yields `0` here whereas JS float division yields
`±Infinity`/`NaN`; the theorems below evaluate this function only where
the divisor is nonzero. -/
def calculateTrend (recent : List (Nat × List (String × Option ℚ))) : ℚ :=
  if recent.length < 2 then 0
  else
    let first := recent.getLastD (0, [])
    let last := recent.headD (0, [])
    let firstScore := calculateAverageScore first.2
    let lastScore := calculateAverageScore last.2
    (lastScore - firstScore) / firstScore

/-- `needsAdaptation(loop, analysis)`. -/
def needsAdaptation (loop : Loop) (analysis : Analysis) : Bool :=
  if analysis.score < 7/10 then true
  else if (analysis.issues.filter (fun i => i.severity == "high")).length > 0 then true
  else
    let recentMetrics := getRecentMetrics loop 5
    if recentMetrics.length ≥ 3 then
      if calculateTrend recentMetrics < -(1/10) then true else false
    else false

/-- Following the words of claim C4 (not the source): the mean per-metric
*score* of one stored sample set against the loop thresholds. -/
def claimMeanMetricScore (thresholds : List (String × ℚ))
    (ms : List (String × Option ℚ)) : ℚ :=
  let L := perMetricScores thresholds ms
  if L.length > 0 then L.sum / (L.length : ℚ) else 0

/-- Following the words of claim C4 (not the source): adaptation needed iff
the overall score is below `0.7`, or some violation is `high`, or at least
3 recent analyses exist and the trend over the mean per-metric *scores* of
the newest versus the oldest of them declines by more than 10%. -/
def claimNeedsAdaptation (thresholds : List (String × ℚ)) (loop : Loop)
    (analysis : Analysis) : Bool :=
  decide (analysis.score < 7/10) ||
  analysis.issues.any (fun i => i.severity == "high") ||
  (let recent := getRecentMetrics loop 5
   decide (3 ≤ recent.length) &&
   (let older := claimMeanMetricScore thresholds (recent.getLastD (0, [])).2
    let newer := claimMeanMetricScore thresholds (recent.headD (0, [])).2
    decide ((newer - older) / older < -(1/10))))

/-- Counterexample to C4: a loop whose raw `response_time` samples drop
from `20` to `10` (all comfortably inside the limit `100`).  The source's
`calculateTrend` averages the *raw sample values*, sees a 50% decline and
demands adaptation, while the trend over the mean per-metric *scores*
described by the claim is `0` (both samples score `1`), so the claim would
not demand adaptation. -/
theorem c4_counterexample_trend_uses_raw_values :
    needsAdaptation
      { createLoopObject "latency"
          ⟨["response_time"], 5000, [("response_time", 100)],
            "performance_optimization", "high"⟩ with
        metrics := [(1, [("response_time", some 20)]), (2, [("response_time", some 20)]),
          (3, [("response_time", some 10)])] }
      (analyzeMetrics [("response_time", 100)] [("response_time", some 10)]) = true ∧
    claimNeedsAdaptation [("response_time", 100)]
      { createLoopObject "latency"
          ⟨["response_time"], 5000, [("response_time", 100)],
            "performance_optimization", "high"⟩ with
        metrics := [(1, [("response_time", some 20)]), (2, [("response_time", some 20)]),
          (3, [("response_time", some 10)])] }
      (analyzeMetrics [("response_time", 100)] [("response_time", some 10)]) = false := by
  have hhib : isHigherBetterMetric "response_time" = false := by decide
  constructor <;>
    norm_num [needsAdaptation, claimNeedsAdaptation, analyzeMetrics, analyzeScan,
      List.lookup, metricScore, isViolation, calculateSeverity, hhib, getRecentMetrics,
      sortByTimestampDesc, insertDesc, createLoopObject, calculateTrend,
      calculateAverageScore, claimMeanMetricScore, perMetricScores,
      List.filterMap_cons, List.sum_cons]

/-- C4 (amended): adaptation is needed iff the overall score is below
`0.7`, or some violation is `high`, or at least 3 stored sample sets exist
among the 5 most recent and the relative change of the mean *raw sample
value* (not the mean per-metric score) of the newest versus the oldest of
them is below `-0.1`. -/
theorem c4_amended_adaptation_decision (loop : Loop) (analysis : Analysis) :
    needsAdaptation loop analysis = true ↔
      (analysis.score < 7/10 ∨
       (∃ i ∈ analysis.issues, i.severity = "high") ∨
       (3 ≤ (getRecentMetrics loop 5).length ∧
        (calculateAverageScore ((getRecentMetrics loop 5).headD (0, [])).2 -
          calculateAverageScore ((getRecentMetrics loop 5).getLastD (0, [])).2) /
            calculateAverageScore ((getRecentMetrics loop 5).getLastD (0, [])).2
          < -(1/10))) := by
  rw [needsAdaptation]
  by_cases h1 : analysis.score < 7/10
  · simp [h1]
  · have hex : ((analysis.issues.filter (fun i => i.severity == "high")).length > 0) ↔
        ∃ i ∈ analysis.issues, i.severity = "high" := by
      rw [gt_iff_lt, List.length_pos]
      constructor
      · intro h
        obtain ⟨i, hi⟩ := List.exists_mem_of_ne_nil _ h
        rw [List.mem_filter] at hi
        exact ⟨i, hi.1, by simpa using hi.2⟩
      · rintro ⟨i, hmem, hsev⟩
        intro hnil
        have : i ∈ analysis.issues.filter (fun i => i.severity == "high") :=
          List.mem_filter.mpr ⟨hmem, by simpa using hsev⟩
        simp [hnil] at this
    by_cases h2 : (analysis.issues.filter (fun i => i.severity == "high")).length > 0
    · simp [h1, h2, hex.mp h2]
    · by_cases h3 : 3 ≤ (getRecentMetrics loop 5).length
      · have hlen : ¬ (getRecentMetrics loop 5).length < 2 := by omega
        simp only [h1, h2, h3, if_false, if_true, hex, calculateTrend, hlen]
        simp [h1, hex.not.mp h2, h3]
      · have : ¬ (3 ≤ (getRecentMetrics loop 5).length) := h3
        simp [h1, h2, this, hex.not.mp h2]

/-- `generateAdaptation(loop, analysis)`: issue-specific strategies for
every current issue, in issue order, followed by the general strategies for
the loop's adaptation type.  `Date.now()` is supplied as `now`. -/
def generateAdaptation (loop : Loop) (analysis : Analysis) (now : Nat) : Adaptation :=
  let adaptationType := loop.config.adaptation
  { type := adaptationType, target := loop.name, issues := analysis.issues,
    strategies := (analysis.issues.map
        (fun i => generateStrategiesForIssue i adaptationType)).flatten ++
      generateGeneralStrategies adaptationType,
    priority := calculateAdaptationPriority analysis,
    expectedImpact := estimateAdaptationImpact analysis,
    timestamp := now }

/-- `executeAdaptationStrategy(strategy)`: the string-keyed dispatch table;
entries return `true` and may scale a real-time gauge, an unknown strategy
name returns `false`.  As written the table never throws. -/
def executeAdaptationStrategy (rtm : RealTimeMetrics) (s : Strategy) :
    Bool × RealTimeMetrics :=
  match s.name with
  | "increase_parallel_processing" => (true, { rtm with throughput := rtm.throughput * (11/10) })
  | "optimize_response_time" => (true, { rtm with responseTime := rtm.responseTime * (9/10) })
  | "reduce_error_rate" => (true, { rtm with errorRate := rtm.errorRate * (8/10) })
  | "enhance_pattern_recognition" => (true, rtm)
  | "accelerate_learning" => (true, { rtm with learningVelocity := rtm.learningVelocity * (115/100) })
  | "improve_task_distribution" => (true, rtm)
  | "enhance_communication" => (true, rtm)
  | "optimize_memory_usage" => (true, rtm)
  | "improve_retrieval" => (true, rtm)
  | "enhance_creativity" => (true, rtm)
  | "improve_implementation" => (true, rtm)
  | _ => (false, rtm)

/-- One step of the strategy loop in `applyAdaptation`: a strategy whose
execution throws is caught (`catch` in the source) and contributes no
success; the gauges keep the value they had before the throwing call. -/
def applyStep (exec : RealTimeMetrics → Strategy → Except String (Bool × RealTimeMetrics))
    (acc : Nat × RealTimeMetrics) (s : Strategy) : Nat × RealTimeMetrics :=
  match exec acc.2 s with
  | .ok (true, rtm') => (acc.1 + 1, rtm')
  | .ok (false, rtm') => (acc.1, rtm')
  | .error _ => acc

/-- `applyAdaptation(loop, adaptation)`, parametrised over the strategy
executor (the source dispatches through `this.executeAdaptationStrategy`).
Records the attempt on `loop.adaptations` and returns the
`successRate > 0.5` success flag together with the updated loop and
gauges; it never throws. -/
def applyAdaptationWith
    (exec : RealTimeMetrics → Strategy → Except String (Bool × RealTimeMetrics))
    (rtm : RealTimeMetrics) (loop : Loop) (adaptation : Adaptation) (now : Nat) :
    Bool × Loop × RealTimeMetrics :=
  let r := adaptation.strategies.foldl (applyStep exec) (0, rtm)
  let totalStrategies := adaptation.strategies.length
  let successRate : ℚ := if totalStrategies > 0 then (r.1 : ℚ) / (totalStrategies : ℚ) else 0
  let loop' := { loop with adaptations := loop.adaptations ++
      [⟨adaptation, now, successRate, r.1, totalStrategies⟩] }
  (decide (successRate > 1/2), loop', r.2)

/-- `applyAdaptation` with the concrete in-source strategy table. -/
def applyAdaptation (rtm : RealTimeMetrics) (loop : Loop) (adaptation : Adaptation)
    (now : Nat) : Bool × Loop × RealTimeMetrics :=
  applyAdaptationWith (fun rtm s => .ok (executeAdaptationStrategy rtm s))
    rtm loop adaptation now

/-- One entry of `this.improvementHistory` (`recordImprovement`). -/
structure Improvement where
  timestamp : Nat
  loop : String
  beforeScore : ℚ
  adaptation : String
  strategiesApplied : Nat
  expectedImpact : ℚ
deriving Repr, DecidableEq

/-- `recordImprovement(loop, adaptation, analysis)`: appends to the
improvement ledger and keeps only the last 100 entries. -/
def recordImprovement (history : List Improvement) (loop : Loop)
    (adaptation : Adaptation) (analysis : Analysis) (now : Nat) : List Improvement :=
  let h := history ++ [⟨now, loop.name, analysis.score, adaptation.type,
    adaptation.strategies.length, adaptation.expectedImpact⟩]
  if h.length > 100 then h.drop (h.length - 100) else h

/-- `updateLoopPerformance(loop, executionTime, success)`: running averages
over `loop.executionCount` (which the caller increments afterwards). -/
def updateLoopPerformance (loop : Loop) (executionTime : ℚ) (success : Bool) : Loop :=
  let count : ℚ := (loop.executionCount : ℚ)
  let perf := loop.performance
  { loop with performance :=
    { averageExecutionTime := (perf.averageExecutionTime * count + executionTime) / (count + 1),
      successRate := (perf.successRate * count + (if success then 1 else 0)) / (count + 1),
      improvementRate := (loop.improvementCount : ℚ) / (count + 1) } }

/-- `executeLoop(loop)`.  `Date.now()` readings are supplied as `tStart`
(cycle start) and `tEnd` (metric-history key, adaptation timestamps,
`lastExecution`, and end of the execution-time measurement), `Math.random()`
draws as `rand`, and the `this.performanceThresholds.get(loop.name)` table
as `thresholds`.  Every exception the body can raise in the source is
caught before reaching the cycle-level `catch` (`collectMetrics` catches
per metric, `applyAdaptation` per strategy), so the embedded body is total
and the `catch` branch is unreachable for loops registered through
`createFeedbackLoop`.  Returns the updated loop, gauges and improvement
ledger. -/
def executeLoop (thresholds : List (String × ℚ)) (rand : String → ℚ)
    (tStart tEnd : Nat) (rtm : RealTimeMetrics) (history : List Improvement)
    (loop : Loop) : Loop × RealTimeMetrics × List Improvement :=
  let metrics := collectMetrics rtm rand loop.config.metrics
  let loop1 := { loop with metrics := assocSet loop.metrics tEnd metrics }
  let analysis := analyzeMetrics thresholds metrics
  let adaptationNeeded := needsAdaptation loop1 analysis
  let afterAdapt :=
    if adaptationNeeded then
      let adaptation := generateAdaptation loop1 analysis tEnd
      let applied := applyAdaptation rtm loop1 adaptation tEnd
      if applied.1 then
        ({ applied.2.1 with improvementCount := applied.2.1.improvementCount + 1 },
          applied.2.2, recordImprovement history loop1 adaptation analysis tEnd)
      else (applied.2.1, applied.2.2, history)
    else (loop1, rtm, history)
  let executionTime : ℚ := (tEnd : ℚ) - (tStart : ℚ)
  let loop2 := updateLoopPerformance afterAdapt.1 executionTime
    (!adaptationNeeded || adaptationNeeded)
  ({ loop2 with executionCount := loop2.executionCount + 1, lastExecution := some tEnd },
    afterAdapt.2.1, afterAdapt.2.2)

/-! ### Cycle-level lemmas -/

/-- `executeLoop` bumps `executionCount` by exactly one on every cycle and
bumps `improvementCount` exactly when adaptation was needed and applying it
succeeded. -/
theorem executeLoop_counts (thresholds : List (String × ℚ)) (rand : String → ℚ)
    (tStart tEnd : Nat) (rtm : RealTimeMetrics) (history : List Improvement)
    (loop : Loop) :
    (executeLoop thresholds rand tStart tEnd rtm history loop).1.executionCount =
      loop.executionCount + 1 ∧
    (executeLoop thresholds rand tStart tEnd rtm history loop).1.improvementCount =
      loop.improvementCount +
        (if (needsAdaptation
              { loop with metrics := assocSet loop.metrics tEnd (collectMetrics rtm rand loop.config.metrics) }
              (analyzeMetrics thresholds (collectMetrics rtm rand loop.config.metrics)) &&
            (applyAdaptation rtm
              { loop with metrics := assocSet loop.metrics tEnd (collectMetrics rtm rand loop.config.metrics) }
              (generateAdaptation
                { loop with metrics := assocSet loop.metrics tEnd (collectMetrics rtm rand loop.config.metrics) }
                (analyzeMetrics thresholds (collectMetrics rtm rand loop.config.metrics))
                tEnd)
              tEnd).1) = true
         then 1 else 0) := by
  simp only [executeLoop]
  constructor
  · split
    · split <;> simp [updateLoopPerformance, applyAdaptation, applyAdaptationWith]
    · simp [updateLoopPerformance]
  · split
    · split <;>
        simp_all [updateLoopPerformance, applyAdaptation, applyAdaptationWith]
    · simp_all [updateLoopPerformance]

/-- The running success-rate update performed by one cycle, in terms of the
incoming loop state (the flag passed to `updateLoopPerformance` is the
tautology `!adaptationNeeded || adaptationNeeded`). -/
theorem executeLoop_successRate_update (thresholds : List (String × ℚ))
    (rand : String → ℚ) (tStart tEnd : Nat) (rtm : RealTimeMetrics)
    (history : List Improvement) (loop : Loop) :
    (executeLoop thresholds rand tStart tEnd rtm history loop).1.performance.successRate =
      (loop.performance.successRate * (loop.executionCount : ℚ) + 1) /
        ((loop.executionCount : ℚ) + 1) := by
  have hflag : ∀ b : Bool, (!b || b) = true := by decide
  simp only [executeLoop, hflag]
  split
  · split <;> simp [updateLoopPerformance, applyAdaptation, applyAdaptationWith]
  · simp [updateLoopPerformance]

theorem executeLoop_successRate_one (thresholds : List (String × ℚ))
    (rand : String → ℚ) (tStart tEnd : Nat) (rtm : RealTimeMetrics)
    (history : List Improvement) (loop : Loop)
    (h : loop.executionCount = 0 ∨ loop.performance.successRate = 1) :
    (executeLoop thresholds rand tStart tEnd rtm history loop).1.performance.successRate
      = 1 := by
  rw [executeLoop_successRate_update]
  rcases h with h | h
  · simp [h]
  · rw [h, one_mul]
    have : ((loop.executionCount : ℚ) + 1) ≠ 0 := by positivity
    exact div_self this

/-- The `Math.random()` draws and `Date.now()` readings consumed by one
cycle of a loop. -/
structure CycleInput where
  rand : String → ℚ
  tStart : Nat
  tEnd : Nat

/-- Iterate `executeLoop` over a list of cycle inputs, threading the loop,
the gauges and the improvement ledger. -/
def runCycles (thresholds : List (String × ℚ)) (inputs : List CycleInput)
    (st : Loop × RealTimeMetrics × List Improvement) :
    Loop × RealTimeMetrics × List Improvement :=
  inputs.foldl (fun s i => executeLoop thresholds i.rand i.tStart i.tEnd s.2.1 s.2.2 s.1) st

theorem runCycles_successRate_one (thresholds : List (String × ℚ)) :
    ∀ (inputs : List CycleInput) (st : Loop × RealTimeMetrics × List Improvement),
      st.1.performance.successRate = 1 →
      (runCycles thresholds inputs st).1.performance.successRate = 1
  | [], st, h => h
  | i :: is, st, h => by
    rw [runCycles, List.foldl_cons]
    exact runCycles_successRate_one thresholds is _
      (executeLoop_successRate_one _ _ _ _ _ _ _ (Or.inr h))

/-- C10: after any nonempty sequence of completed cycles starting from a
freshly created loop, the recorded `performance.successRate` is exactly
`1`: `executeLoop` passes the tautology `!adaptationNeeded ||
adaptationNeeded` to `updateLoopPerformance`, so every completed cycle is
counted as a success (and a cycle that threw performs no update at all). -/
theorem c10_success_rate_always_one (thresholds : List (String × ℚ))
    (name : String) (config : LoopConfig) (rtm0 : RealTimeMetrics)
    (hist0 : List Improvement) (inputs : List CycleInput) (hne : inputs ≠ []) :
    (runCycles thresholds inputs
      (createLoopObject name config, rtm0, hist0)).1.performance.successRate = 1 := by
  match inputs, hne with
  | i :: is, _ =>
    rw [runCycles, List.foldl_cons]
    exact runCycles_successRate_one thresholds is _
      (executeLoop_successRate_one _ _ _ _ _ _ _ (Or.inl rfl))

/-- Witness for C10: one concrete cycle of a freshly created loop. -/
theorem c10_success_rate_always_one_witness :
    (runCycles [("response_time", 2000)] [⟨fun _ => 0, 0, 1⟩]
      (createLoopObject "p"
        ⟨["response_time"], 5000, [("response_time", 2000)],
          "performance_optimization", "high"⟩,
       ⟨0, 0, 0, 0, 0⟩, [])).1.performance.successRate = 1 :=
  c10_success_rate_always_one _ _ _ _ _ _ (List.cons_ne_nil _ _)

/-- Counterexample to C5: a loop whose configured metrics are
`["response_time", "bogus"]`.  Sampling `bogus` throws (`Unknown metric`)
and is recorded as `null`, yet the cycle still finds a `high`
`response_time` violation, applies an adaptation with strategy success
rate `2/3 > 0.5`, and therefore increments `improvementCount` — the
claim's assertion that a cycle whose sampling throws never counts toward
`improvementCount` is false.  (`executionCount` increments as claimed.) -/
theorem c5_counterexample_thrown_sample_can_improve :
    (getMetricValue ⟨5000, 0, 0, 0, 0⟩ 0 "bogus").toOption = none ∧
    collectMetrics ⟨5000, 0, 0, 0, 0⟩ (fun _ => 0) ["response_time", "bogus"] =
      [("response_time", some 5000), ("bogus", none)] ∧
    (executeLoop [("response_time", 2000)] (fun _ => 0) 0 1 ⟨5000, 0, 0, 0, 0⟩ []
      (createLoopObject "p"
        ⟨["response_time", "bogus"], 5000, [("response_time", 2000)],
          "performance_optimization", "high"⟩)).1.executionCount = 1 ∧
    (executeLoop [("response_time", 2000)] (fun _ => 0) 0 1 ⟨5000, 0, 0, 0, 0⟩ []
      (createLoopObject "p"
        ⟨["response_time", "bogus"], 5000, [("response_time", 2000)],
          "performance_optimization", "high"⟩)).1.improvementCount = 1 := by
  have hbogus : getMetricValue ⟨5000, 0, 0, 0, 0⟩ 0 "bogus" =
      .error "Unknown metric: bogus" := rfl
  have hrt : getMetricValue ⟨5000, 0, 0, 0, 0⟩ 0 "response_time" = .ok 5000 := by
    norm_num [getMetricValue]
  have hcm : collectMetrics ⟨5000, 0, 0, 0, 0⟩ (fun _ => 0) ["response_time", "bogus"] =
      [("response_time", some 5000), ("bogus", none)] := by
    simp [collectMetrics, hbogus, hrt, Except.toOption]
  have hhib : isHigherBetterMetric "response_time" = false := by decide
  have hs1 : ∀ r : RealTimeMetrics,
      executeAdaptationStrategy r ⟨"optimize_response_time", "response_time", "high", 3/10⟩ =
        (true, { r with responseTime := r.responseTime * (9/10) }) := fun r => rfl
  have hs2 : ∀ r : RealTimeMetrics,
      executeAdaptationStrategy r
          ⟨"increase_parallel_processing", "response_time", "high", 9/40⟩ =
        (true, { r with throughput := r.throughput * (11/10) }) := fun r => rfl
  have hs3 : ∀ r : RealTimeMetrics,
      executeAdaptationStrategy r ⟨"general_performance_tuning", "general", "medium", 1/10⟩ =
        (false, r) := fun r => rfl
  have hana : analyzeMetrics [("response_time", 2000)]
      [("response_time", some 5000), ("bogus", none)] =
      ⟨"poor", [⟨"response_time", 5000, 2000, "high"⟩], 2/5,
        [⟨"issue_resolution", some "response_time", some "high"⟩,
         ⟨"general_improvement", none, none⟩]⟩ := by
    norm_num [analyzeMetrics, analyzeScan, List.lookup, metricScore, isViolation,
      calculateSeverity, hhib, generateRecommendations]
  have hneed : ∀ l : Loop,
      needsAdaptation l ⟨"poor", [⟨"response_time", 5000, 2000, "high"⟩], 2/5,
        [⟨"issue_resolution", some "response_time", some "high"⟩,
         ⟨"general_improvement", none, none⟩]⟩ = true := by
    intro l
    norm_num [needsAdaptation]
  have hga : ∀ l : Loop, l.config.adaptation = "performance_optimization" → l.name = "p" →
      generateAdaptation l ⟨"poor", [⟨"response_time", 5000, 2000, "high"⟩], 2/5,
        [⟨"issue_resolution", some "response_time", some "high"⟩,
         ⟨"general_improvement", none, none⟩]⟩ 1 =
      ⟨"performance_optimization", "p", [⟨"response_time", 5000, 2000, "high"⟩],
        [⟨"optimize_response_time", "response_time", "high", 3/10⟩,
         ⟨"increase_parallel_processing", "response_time", "high", 9/40⟩,
         ⟨"general_performance_tuning", "general", "medium", 1/10⟩],
        "critical", 3/10, 1⟩ := by
    intro l h1 h2
    have hlkSM : List.lookup "performance_optimization" strategyMap =
        some [("response_time", ["optimize_response_time", "increase_parallel_processing"]),
          ("throughput", ["increase_parallel_processing", "optimize_resource_allocation"]),
          ("error_rate", ["reduce_error_rate", "improve_error_handling"])] := rfl
    have hlkRT : List.lookup "response_time"
        [("response_time", ["optimize_response_time", "increase_parallel_processing"]),
          ("throughput", ["increase_parallel_processing", "optimize_resource_allocation"]),
          ("error_rate", ["reduce_error_rate", "improve_error_handling"])] =
        some ["optimize_response_time", "increase_parallel_processing"] := rfl
    have hlkB1 : List.lookup "optimize_response_time" baseImpact = some (2/10) := rfl
    have hlkB2 : List.lookup "increase_parallel_processing" baseImpact = some (15/100) := rfl
    have hlkG : List.lookup "performance_optimization" generalStrategyTable =
        some ["general_performance_tuning"] := rfl
    norm_num [generateAdaptation, h1, h2, generateStrategiesForIssue, hlkSM, hlkRT,
      estimateStrategyImpact, hlkB1, hlkB2, generateGeneralStrategies, hlkG,
      calculateAdaptationPriority, estimateAdaptationImpact]
  have happ : ∀ l : Loop,
      (applyAdaptation ⟨5000, 0, 0, 0, 0⟩ l
        ⟨"performance_optimization", "p", [⟨"response_time", 5000, 2000, "high"⟩],
          [⟨"optimize_response_time", "response_time", "high", 3/10⟩,
           ⟨"increase_parallel_processing", "response_time", "high", 9/40⟩,
           ⟨"general_performance_tuning", "general", "medium", 1/10⟩],
          "critical", 3/10, 1⟩ 1).1 = true := by
    intro l
    norm_num [applyAdaptation, applyAdaptationWith, applyStep, hs1, hs2, hs3]
  obtain ⟨hexec, himp⟩ := executeLoop_counts [("response_time", 2000)] (fun _ => 0) 0 1
    ⟨5000, 0, 0, 0, 0⟩ []
    (createLoopObject "p"
      ⟨["response_time", "bogus"], 5000, [("response_time", 2000)],
        "performance_optimization", "high"⟩)
  refine ⟨rfl, hcm, ?_, ?_⟩
  · rw [hexec]
    simp [createLoopObject]
  · rw [himp]
    simp [-one_div, createLoopObject, hcm, hana, hga, hneed, happ]

/-- C5 (amended): every completed cycle increments `executionCount` by
exactly one (a per-metric sampling exception is caught inside
`collectMetrics` and does not fail the cycle), and `improvementCount`
increments exactly when adaptation was needed and `applyAdaptation`
reported success, i.e. when the applied strategies' success rate exceeded
`0.5` — regardless of whether some samples threw.  (A cycle that fails
wholesale reaches the `catch` of `executeLoop` *before* the
`executionCount` increment, so no such cycle is counted at all; within the
embedding every cycle completes.) -/
theorem c5_amended_count_semantics (thresholds : List (String × ℚ)) (rand : String → ℚ)
    (tStart tEnd : Nat) (rtm : RealTimeMetrics) (history : List Improvement)
    (loop : Loop) :
    (executeLoop thresholds rand tStart tEnd rtm history loop).1.executionCount =
      loop.executionCount + 1 ∧
    (executeLoop thresholds rand tStart tEnd rtm history loop).1.improvementCount =
      loop.improvementCount +
        (if (needsAdaptation
              { loop with metrics := assocSet loop.metrics tEnd (collectMetrics rtm rand loop.config.metrics) }
              (analyzeMetrics thresholds (collectMetrics rtm rand loop.config.metrics)) &&
            (applyAdaptation rtm
              { loop with metrics := assocSet loop.metrics tEnd (collectMetrics rtm rand loop.config.metrics) }
              (generateAdaptation
                { loop with metrics := assocSet loop.metrics tEnd (collectMetrics rtm rand loop.config.metrics) }
                (analyzeMetrics thresholds (collectMetrics rtm rand loop.config.metrics))
                tEnd)
              tEnd).1) = true
         then 1 else 0) :=
  executeLoop_counts thresholds rand tStart tEnd rtm history loop

/-- C6: errors arising inside a cycle are contained.  (1) `collectMetrics`
produces one entry per configured metric, never aborting the cycle;
(2) a sample entry carries a value exactly when the metric has a
registered calculator — an unknown metric's throw is caught and recorded
as `null`; (3) `applyAdaptationWith` treats a strategy whose execution
throws exactly like one reporting failure: the throw is caught, the
strategy counts as unsuccessful, and the call still returns its outcome
normally. -/
theorem c6_cycle_error_containment :
    (∀ (rtm : RealTimeMetrics) (rand : String → ℚ) (names : List String),
      (collectMetrics rtm rand names).map Prod.fst = names) ∧
    (∀ (rtm : RealTimeMetrics) (r : ℚ) (n : String),
      (getMetricValue rtm r n).toOption.isSome = knownMetrics.contains n) ∧
    (∀ (exec : RealTimeMetrics → Strategy → Except String (Bool × RealTimeMetrics))
      (rtm : RealTimeMetrics) (loop : Loop) (adaptation : Adaptation) (now : Nat),
      applyAdaptationWith exec rtm loop adaptation now =
        applyAdaptationWith (fun r s =>
          match exec r s with
          | .error _ => .ok (false, r)
          | .ok x => .ok x) rtm loop adaptation now) := by
  refine ⟨?_, ?_, ?_⟩
  · intro rtm rand names
    induction names with
    | nil => simp [collectMetrics]
    | cons n rest ih => simpa [collectMetrics] using ih
  · intro rtm r n
    unfold getMetricValue
    split <;> simp_all [knownMetrics, Except.toOption]
  · intro exec rtm loop adaptation now
    have hstep : applyStep (fun r s =>
        match exec r s with
        | .error _ => .ok (false, r)
        | .ok x => .ok x) = applyStep exec := by
      funext acc s
      unfold applyStep
      cases h : exec acc.2 s with
      | error e => simp [h]
      | ok x =>
        rcases x with ⟨b, r⟩
        cases b <;> simp [h]
    rw [applyAdaptationWith, applyAdaptationWith, hstep]

/-! ### The supervisor: registry, timers, `start`/`stop`, and the timer
transition system -/

/-- The mutable state of one `SwarmFeedbackLoops` instance.  Loop objects
live in `heap` under an allocation id so that a loop object replaced in
`activeLoops` by a duplicate registration keeps its identity and its
pending timer; `activeLoops` maps names to allocation ids (the JS `Map`).
A pending `setInterval` timer is represented by the loop object holding
its id in `intervalId` (`clearInterval` clears that field; ids are
allocated from `nextTimerId`).  The `startRealTimeMetrics` interval only
mutates `realTimeMetrics` once a second and never invokes `executeLoop`;
it is not modelled. -/
structure SysState where
  heap : List (Nat × Loop)
  activeLoops : List (String × Nat)
  performanceThresholds : List (String × List (String × ℚ))
  isRunning : Bool
  rtm : RealTimeMetrics
  improvementHistory : List Improvement
  nextLoopId : Nat
  nextTimerId : Nat
deriving Repr, DecidableEq

/-- Dereference a loop allocation id. -/
def heapGet (st : SysState) (lid : Nat) : Option Loop :=
  List.lookup lid st.heap

/-- Overwrite the loop object stored under an allocation id. -/
def heapSet (heap : List (Nat × Loop)) (lid : Nat) (l : Loop) : List (Nat × Loop) :=
  heap.map (fun e => if e.1 == lid then (lid, l) else e)

/-- `createFeedbackLoop(name, config)`: builds a fresh loop object and
unconditionally installs it under `name` (`Map.set`), also (re)setting the
threshold table entry.  The source performs no state check and defines no
error path: a previously registered loop under the same name — active or
not — is simply unlinked from the registry (its object and any pending
timer survive in the heap). -/
def createFeedbackLoop (name : String) (config : LoopConfig) (st : SysState) : SysState :=
  { st with
    heap := st.heap ++ [(st.nextLoopId, createLoopObject name config)],
    activeLoops := assocSet st.activeLoops name st.nextLoopId,
    performanceThresholds := assocSet st.performanceThresholds name config.threshold,
    nextLoopId := st.nextLoopId + 1 }

/-- `startLoop(loop)`: no-op when already active, otherwise installs a
fresh interval timer and marks the loop active. -/
def startLoop (st : SysState) (lid : Nat) : SysState :=
  match heapGet st lid with
  | none => st
  | some l =>
    if l.state == "active" then st
    else
      { st with
        heap := heapSet st.heap lid
          { l with state := "active", intervalId := some st.nextTimerId },
        nextTimerId := st.nextTimerId + 1 }

/-- `stopLoop(loop)`: no-op when already inactive, otherwise marks the
loop inactive and cancels its timer (`clearInterval` + `delete
loop.intervalId`). -/
def stopLoop (st : SysState) (lid : Nat) : SysState :=
  match heapGet st lid with
  | none => st
  | some l =>
    if l.state == "inactive" then st
    else
      { st with
        heap := heapSet st.heap lid { l with state := "inactive", intervalId := none } }

/-- `start()`: no-op when already running, else marks the system running
and starts every registered loop. -/
def start (st : SysState) : SysState :=
  if st.isRunning then st
  else (st.activeLoops.foldl (fun s e => startLoop s e.2) { st with isRunning := true })

/-- `stop()`: no-op when not running, else marks the system stopped and
stops every loop reachable through `activeLoops`.  A loop object that was
unlinked from `activeLoops` by a duplicate registration is not visited,
so its pending timer is not cancelled. -/
def stop (st : SysState) : SysState :=
  if !st.isRunning then st
  else (st.activeLoops.foldl (fun s e => stopLoop s e.2) { st with isRunning := false })

/-- One firing of the interval timer `tid` (the `setInterval` callback
closes over the loop *object*): if some heap loop still owns that timer
id, run `executeLoop` on it with the loop's registered threshold table.
A timer whose id no heap object holds has been cancelled and cannot
fire. -/
def tick (tid tStart tEnd : Nat) (rand : String → ℚ) (st : SysState) : SysState :=
  match st.heap.find? (fun e => e.2.intervalId == some tid) with
  | none => st
  | some (lid, l) =>
    match List.lookup l.name st.performanceThresholds with
    | none => st
    | some thresholds =>
      let r := executeLoop thresholds rand tStart tEnd st.rtm st.improvementHistory l
      { st with
          heap := heapSet st.heap lid r.1
          rtm := r.2.1
          improvementHistory := r.2.2 }

/-- One scheduled timer firing: the timer id plus the `Date.now()` and
`Math.random()` readings its cycle consumes. -/
structure TickEvent where
  tid : Nat
  tStart : Nat
  tEnd : Nat
  rand : String → ℚ

/-- Fire a sequence of timer events. -/
def runTicks (evs : List TickEvent) (st : SysState) : SysState :=
  evs.foldl (fun s e => tick e.tid e.tStart e.tEnd e.rand s) st

/-- The `performance` loop configuration of `initializeDefaultLoops`. -/
def performanceConfig : LoopConfig :=
  ⟨["response_time", "throughput", "error_rate"], 5000,
    [("response_time", 2000), ("throughput", 10), ("error_rate", 5/100)],
    "performance_optimization", "high"⟩

/-- The `learning` loop configuration of `initializeDefaultLoops`. -/
def learningConfig : LoopConfig :=
  ⟨["learning_velocity", "pattern_recognition", "adaptation_success"], 10000,
    [("learning_velocity", 7/10), ("pattern_recognition", 8/10), ("adaptation_success", 6/10)],
    "learning_optimization", "medium"⟩

/-- The `coordination` loop configuration of `initializeDefaultLoops`. -/
def coordinationConfig : LoopConfig :=
  ⟨["task_distribution", "agent_efficiency", "communication_latency"], 15000,
    [("task_distribution", 8/10), ("agent_efficiency", 75/100), ("communication_latency", 500)],
    "coordination_optimization", "high"⟩

/-- The `memory` loop configuration of `initializeDefaultLoops`. -/
def memoryConfig : LoopConfig :=
  ⟨["memory_utilization", "retrieval_accuracy", "storage_efficiency"], 20000,
    [("memory_utilization", 8/10), ("retrieval_accuracy", 9/10), ("storage_efficiency", 7/10)],
    "memory_optimization", "medium"⟩

/-- The `innovation` loop configuration of `initializeDefaultLoops`. -/
def innovationConfig : LoopConfig :=
  ⟨["idea_quality", "implementation_success", "user_satisfaction"], 30000,
    [("idea_quality", 7/10), ("implementation_success", 8/10), ("user_satisfaction", 85/100)],
    "innovation_enhancement", "medium"⟩

/-- The five default loop registrations of `initializeDefaultLoops`. -/
def defaultLoopConfigs : List (String × LoopConfig) :=
  [("performance", performanceConfig), ("learning", learningConfig),
   ("coordination", coordinationConfig), ("memory", memoryConfig),
   ("innovation", innovationConfig)]

/-- The constructor state of `SwarmFeedbackLoops`: empty registries, zeroed
gauges, then `initializeDefaultLoops`. -/
def mkSwarmFeedbackLoops : SysState :=
  defaultLoopConfigs.foldl (fun s e => createFeedbackLoop e.1 e.2 s)
    ⟨[], [], [], false, ⟨0, 0, 0, 0, 0⟩, [], 0, 0⟩

theorem lookup_assocSet {α β : Type} [BEq α] [LawfulBEq α]
    (m : List (α × β)) (k : α) (v : β) :
    List.lookup k (assocSet m k v) = some v := by
  induction m with
  | nil => simp [assocSet, List.lookup]
  | cons e rest ih =>
    rw [assocSet]
    cases h : e.1 == k with
    | true => simp [h, List.lookup]
    | false =>
      have : ¬ (k == e.1) = true := by
        simp at h ⊢
        exact fun hk => h (hk ▸ rfl)
      simp [h, List.lookup, this, ih]

/-- Counterexample to C7: a state holding an *Active* loop `"x"`
(`executionCount = 3`, pending timer `0`).  `createFeedbackLoop "x"`
neither checks the state nor raises anything — the source has no
`LoopAlreadyActiveError` and no error path at all — it simply installs a
fresh inactive loop object over the registry entry. -/
theorem c7_counterexample_active_loop_replaced_without_error :
    (heapGet
      ⟨[(0, { createLoopObject "x" ⟨["m"], 1000, [("m", 1)], "none_type", "low"⟩ with
          state := "active", executionCount := 3, intervalId := some 0 })],
        [("x", 0)], [("x", [("m", 1)])], true, ⟨0, 0, 0, 0, 0⟩, [], 1, 1⟩ 0).map Loop.state =
      some "active" ∧
    List.lookup "x"
      (createFeedbackLoop "x" ⟨["m"], 1000, [("m", 1)], "none_type", "low"⟩
        ⟨[(0, { createLoopObject "x" ⟨["m"], 1000, [("m", 1)], "none_type", "low"⟩ with
            state := "active", executionCount := 3, intervalId := some 0 })],
          [("x", 0)], [("x", [("m", 1)])], true, ⟨0, 0, 0, 0, 0⟩, [], 1, 1⟩).activeLoops =
      some 1 ∧
    (heapGet
      (createFeedbackLoop "x" ⟨["m"], 1000, [("m", 1)], "none_type", "low"⟩
        ⟨[(0, { createLoopObject "x" ⟨["m"], 1000, [("m", 1)], "none_type", "low"⟩ with
            state := "active", executionCount := 3, intervalId := some 0 })],
          [("x", 0)], [("x", [("m", 1)])], true, ⟨0, 0, 0, 0, 0⟩, [], 1, 1⟩) 1).map
      Loop.executionCount = some 0 ∧
    (heapGet
      (createFeedbackLoop "x" ⟨["m"], 1000, [("m", 1)], "none_type", "low"⟩
        ⟨[(0, { createLoopObject "x" ⟨["m"], 1000, [("m", 1)], "none_type", "low"⟩ with
            state := "active", executionCount := 3, intervalId := some 0 })],
          [("x", 0)], [("x", [("m", 1)])], true, ⟨0, 0, 0, 0, 0⟩, [], 1, 1⟩) 1).map
      Loop.state = some "inactive" :=
  ⟨rfl, rfl, rfl, rfl⟩

/-- C7 (amended): registering a loop under any name — whether a loop of
that name exists and whether it is Active or Inactive — always succeeds
and installs a fresh definition: the registry maps the name to the newly
allocated loop object, which starts Inactive with `executionCount = 0`.
No `LoopAlreadyActiveError` exists in the source. -/
theorem c7_amended_registration_always_replaces (st : SysState) (name : String)
    (config : LoopConfig) :
    (st.nextLoopId, createLoopObject name config) ∈
      (createFeedbackLoop name config st).heap ∧
    List.lookup name (createFeedbackLoop name config st).activeLoops =
      some st.nextLoopId ∧
    (createLoopObject name config).executionCount = 0 ∧
    (createLoopObject name config).state = "inactive" := by
  refine ⟨?_, ?_, rfl, rfl⟩
  · simp [createFeedbackLoop]
  · simp [createFeedbackLoop, lookup_assocSet]

/-- Counterexample to C8: register a loop `"x"`, `start()` the system, let
`"x"` run one cycle, register `"x"` again (the duplicate registration
unlinks the active object and — C7 — raises nothing), then `stop()`.
`stop()` only visits loops reachable through `activeLoops`, so the
replaced object keeps its `setInterval` timer: after `stop()` has returned
(`isRunning = false`), that timer fires again and the replaced loop's
`executionCount` rises from 1 to 2 — a further `executeLoop` invocation
after `stop()`. -/
theorem c8_counterexample_replaced_loop_runs_after_stop :
    let s5 := stop (createFeedbackLoop "x" ⟨["m"], 1000, [("m", 1)], "none_type", "low"⟩
      (tick 5 0 1 (fun _ => 0)
        (start (createFeedbackLoop "x" ⟨["m"], 1000, [("m", 1)], "none_type", "low"⟩
          mkSwarmFeedbackLoops))))
    s5.isRunning = false ∧
    (heapGet s5 5).map Loop.executionCount = some 1 ∧
    (heapGet (tick 5 1 2 (fun _ => 0) s5) 5).map Loop.executionCount = some 2 := by
  have hm : getMetricValue ⟨0, 0, 0, 0, 0⟩ 0 "m" = .error "Unknown metric: m" := rfl
  have hcm : collectMetrics ⟨0, 0, 0, 0, 0⟩ (fun _ => 0) ["m"] = [("m", none)] := by
    simp [collectMetrics, hm, Except.toOption]
  have h1 : createFeedbackLoop "x" ⟨["m"], 1000, [("m", 1)], "none_type", "low"⟩
      mkSwarmFeedbackLoops =
      ⟨[(0, createLoopObject "performance" performanceConfig),
        (1, createLoopObject "learning" learningConfig),
        (2, createLoopObject "coordination" coordinationConfig),
        (3, createLoopObject "memory" memoryConfig),
        (4, createLoopObject "innovation" innovationConfig),
        (5, createLoopObject "x" ⟨["m"], 1000, [("m", 1)], "none_type", "low"⟩)],
       [("performance", 0), ("learning", 1), ("coordination", 2), ("memory", 3),
        ("innovation", 4), ("x", 5)],
       [("performance", performanceConfig.threshold), ("learning", learningConfig.threshold),
        ("coordination", coordinationConfig.threshold), ("memory", memoryConfig.threshold),
        ("innovation", innovationConfig.threshold), ("x", [("m", 1)])],
       false, ⟨0, 0, 0, 0, 0⟩, [], 6, 0⟩ := by
    simp [mkSwarmFeedbackLoops, defaultLoopConfigs, createFeedbackLoop, createLoopObject,
      assocSet, performanceConfig, learningConfig, coordinationConfig, memoryConfig,
      innovationConfig]
  have h2 : start
      (⟨[(0, createLoopObject "performance" performanceConfig),
        (1, createLoopObject "learning" learningConfig),
        (2, createLoopObject "coordination" coordinationConfig),
        (3, createLoopObject "memory" memoryConfig),
        (4, createLoopObject "innovation" innovationConfig),
        (5, createLoopObject "x" ⟨["m"], 1000, [("m", 1)], "none_type", "low"⟩)],
       [("performance", 0), ("learning", 1), ("coordination", 2), ("memory", 3),
        ("innovation", 4), ("x", 5)],
       [("performance", performanceConfig.threshold), ("learning", learningConfig.threshold),
        ("coordination", coordinationConfig.threshold), ("memory", memoryConfig.threshold),
        ("innovation", innovationConfig.threshold), ("x", [("m", 1)])],
       false, ⟨0, 0, 0, 0, 0⟩, [], 6, 0⟩ : SysState) =
      ⟨[(0, { createLoopObject "performance" performanceConfig with
          state := "active", intervalId := some 0 }),
        (1, { createLoopObject "learning" learningConfig with
          state := "active", intervalId := some 1 }),
        (2, { createLoopObject "coordination" coordinationConfig with
          state := "active", intervalId := some 2 }),
        (3, { createLoopObject "memory" memoryConfig with
          state := "active", intervalId := some 3 }),
        (4, { createLoopObject "innovation" innovationConfig with
          state := "active", intervalId := some 4 }),
        (5, { createLoopObject "x" ⟨["m"], 1000, [("m", 1)], "none_type", "low"⟩ with
          state := "active", intervalId := some 5 })],
       [("performance", 0), ("learning", 1), ("coordination", 2), ("memory", 3),
        ("innovation", 4), ("x", 5)],
       [("performance", performanceConfig.threshold), ("learning", learningConfig.threshold),
        ("coordination", coordinationConfig.threshold), ("memory", memoryConfig.threshold),
        ("innovation", innovationConfig.threshold), ("x", [("m", 1)])],
       true, ⟨0, 0, 0, 0, 0⟩, [], 6, 6⟩ := by
    simp [start, startLoop, heapGet, heapSet, createLoopObject, List.lookup,
      performanceConfig, learningConfig, coordinationConfig, memoryConfig, innovationConfig]
  have hexe1 : executeLoop [("m", 1)] (fun _ => 0) 0 1 ⟨0, 0, 0, 0, 0⟩ []
      ⟨"x", ⟨["m"], 1000, [("m", 1)], "none_type", "low"⟩, "active", some 5, none, 0, 0,
        [], [], ⟨0, 0, 0⟩⟩ =
      (⟨"x", ⟨["m"], 1000, [("m", 1)], "none_type", "low"⟩, "active", some 5, some 1, 1, 0,
        [(1, [("m", none)])],
        [⟨⟨"none_type", "x", [], [], "critical", 3/10, 1⟩, 1, 0, 0, 0⟩], ⟨1, 1, 0⟩⟩,
       ⟨0, 0, 0, 0, 0⟩, []) := by
    simp [executeLoop, hcm, hm, Except.toOption, createLoopObject, assocSet, analyzeMetrics, analyzeScan,
      generateRecommendations, needsAdaptation, getRecentMetrics, sortByTimestampDesc,
      insertDesc, calculateTrend, calculateAverageScore, generateAdaptation,
      generateStrategiesForIssue, strategyMap, List.lookup, generateGeneralStrategies,
      generalStrategyTable, calculateAdaptationPriority, estimateAdaptationImpact,
      applyAdaptation, applyAdaptationWith, applyStep, recordImprovement,
      updateLoopPerformance, min_def]
    norm_num
  have h3 : tick 5 0 1 (fun _ => 0)
      (⟨[(0, { createLoopObject "performance" performanceConfig with
          state := "active", intervalId := some 0 }),
        (1, { createLoopObject "learning" learningConfig with
          state := "active", intervalId := some 1 }),
        (2, { createLoopObject "coordination" coordinationConfig with
          state := "active", intervalId := some 2 }),
        (3, { createLoopObject "memory" memoryConfig with
          state := "active", intervalId := some 3 }),
        (4, { createLoopObject "innovation" innovationConfig with
          state := "active", intervalId := some 4 }),
        (5, { createLoopObject "x" ⟨["m"], 1000, [("m", 1)], "none_type", "low"⟩ with
          state := "active", intervalId := some 5 })],
       [("performance", 0), ("learning", 1), ("coordination", 2), ("memory", 3),
        ("innovation", 4), ("x", 5)],
       [("performance", performanceConfig.threshold), ("learning", learningConfig.threshold),
        ("coordination", coordinationConfig.threshold), ("memory", memoryConfig.threshold),
        ("innovation", innovationConfig.threshold), ("x", [("m", 1)])],
       true, ⟨0, 0, 0, 0, 0⟩, [], 6, 6⟩ : SysState) =
      ⟨[(0, { createLoopObject "performance" performanceConfig with
          state := "active", intervalId := some 0 }),
        (1, { createLoopObject "learning" learningConfig with
          state := "active", intervalId := some 1 }),
        (2, { createLoopObject "coordination" coordinationConfig with
          state := "active", intervalId := some 2 }),
        (3, { createLoopObject "memory" memoryConfig with
          state := "active", intervalId := some 3 }),
        (4, { createLoopObject "innovation" innovationConfig with
          state := "active", intervalId := some 4 }),
        (5, ⟨"x", ⟨["m"], 1000, [("m", 1)], "none_type", "low"⟩, "active", some 5, some 1, 1, 0,
          [(1, [("m", none)])],
          [⟨⟨"none_type", "x", [], [], "critical", 3/10, 1⟩, 1, 0, 0, 0⟩], ⟨1, 1, 0⟩⟩)],
       [("performance", 0), ("learning", 1), ("coordination", 2), ("memory", 3),
        ("innovation", 4), ("x", 5)],
       [("performance", performanceConfig.threshold), ("learning", learningConfig.threshold),
        ("coordination", coordinationConfig.threshold), ("memory", memoryConfig.threshold),
        ("innovation", innovationConfig.threshold), ("x", [("m", 1)])],
       true, ⟨0, 0, 0, 0, 0⟩, [], 6, 6⟩ := by
    simp [tick, heapGet, heapSet, List.lookup, List.find?, createLoopObject, hexe1,
      performanceConfig, learningConfig, coordinationConfig, memoryConfig, innovationConfig]
  have h4 : createFeedbackLoop "x" ⟨["m"], 1000, [("m", 1)], "none_type", "low"⟩
      (⟨[(0, { createLoopObject "performance" performanceConfig with
          state := "active", intervalId := some 0 }),
        (1, { createLoopObject "learning" learningConfig with
          state := "active", intervalId := some 1 }),
        (2, { createLoopObject "coordination" coordinationConfig with
          state := "active", intervalId := some 2 }),
        (3, { createLoopObject "memory" memoryConfig with
          state := "active", intervalId := some 3 }),
        (4, { createLoopObject "innovation" innovationConfig with
          state := "active", intervalId := some 4 }),
        (5, ⟨"x", ⟨["m"], 1000, [("m", 1)], "none_type", "low"⟩, "active", some 5, some 1, 1, 0,
          [(1, [("m", none)])],
          [⟨⟨"none_type", "x", [], [], "critical", 3/10, 1⟩, 1, 0, 0, 0⟩], ⟨1, 1, 0⟩⟩)],
       [("performance", 0), ("learning", 1), ("coordination", 2), ("memory", 3),
        ("innovation", 4), ("x", 5)],
       [("performance", performanceConfig.threshold), ("learning", learningConfig.threshold),
        ("coordination", coordinationConfig.threshold), ("memory", memoryConfig.threshold),
        ("innovation", innovationConfig.threshold), ("x", [("m", 1)])],
       true, ⟨0, 0, 0, 0, 0⟩, [], 6, 6⟩ : SysState) =
      ⟨[(0, { createLoopObject "performance" performanceConfig with
          state := "active", intervalId := some 0 }),
        (1, { createLoopObject "learning" learningConfig with
          state := "active", intervalId := some 1 }),
        (2, { createLoopObject "coordination" coordinationConfig with
          state := "active", intervalId := some 2 }),
        (3, { createLoopObject "memory" memoryConfig with
          state := "active", intervalId := some 3 }),
        (4, { createLoopObject "innovation" innovationConfig with
          state := "active", intervalId := some 4 }),
        (5, ⟨"x", ⟨["m"], 1000, [("m", 1)], "none_type", "low"⟩, "active", some 5, some 1, 1, 0,
          [(1, [("m", none)])],
          [⟨⟨"none_type", "x", [], [], "critical", 3/10, 1⟩, 1, 0, 0, 0⟩], ⟨1, 1, 0⟩⟩),
        (6, createLoopObject "x" ⟨["m"], 1000, [("m", 1)], "none_type", "low"⟩)],
       [("performance", 0), ("learning", 1), ("coordination", 2), ("memory", 3),
        ("innovation", 4), ("x", 6)],
       [("performance", performanceConfig.threshold), ("learning", learningConfig.threshold),
        ("coordination", coordinationConfig.threshold), ("memory", memoryConfig.threshold),
        ("innovation", innovationConfig.threshold), ("x", [("m", 1)])],
       true, ⟨0, 0, 0, 0, 0⟩, [], 7, 6⟩ := by
    simp [createFeedbackLoop, assocSet]
  have h5 : stop
      (⟨[(0, { createLoopObject "performance" performanceConfig with
          state := "active", intervalId := some 0 }),
        (1, { createLoopObject "learning" learningConfig with
          state := "active", intervalId := some 1 }),
        (2, { createLoopObject "coordination" coordinationConfig with
          state := "active", intervalId := some 2 }),
        (3, { createLoopObject "memory" memoryConfig with
          state := "active", intervalId := some 3 }),
        (4, { createLoopObject "innovation" innovationConfig with
          state := "active", intervalId := some 4 }),
        (5, ⟨"x", ⟨["m"], 1000, [("m", 1)], "none_type", "low"⟩, "active", some 5, some 1, 1, 0,
          [(1, [("m", none)])],
          [⟨⟨"none_type", "x", [], [], "critical", 3/10, 1⟩, 1, 0, 0, 0⟩], ⟨1, 1, 0⟩⟩),
        (6, createLoopObject "x" ⟨["m"], 1000, [("m", 1)], "none_type", "low"⟩)],
       [("performance", 0), ("learning", 1), ("coordination", 2), ("memory", 3),
        ("innovation", 4), ("x", 6)],
       [("performance", performanceConfig.threshold), ("learning", learningConfig.threshold),
        ("coordination", coordinationConfig.threshold), ("memory", memoryConfig.threshold),
        ("innovation", innovationConfig.threshold), ("x", [("m", 1)])],
       true, ⟨0, 0, 0, 0, 0⟩, [], 7, 6⟩ : SysState) =
      ⟨[(0, createLoopObject "performance" performanceConfig),
        (1, createLoopObject "learning" learningConfig),
        (2, createLoopObject "coordination" coordinationConfig),
        (3, createLoopObject "memory" memoryConfig),
        (4, createLoopObject "innovation" innovationConfig),
        (5, ⟨"x", ⟨["m"], 1000, [("m", 1)], "none_type", "low"⟩, "active", some 5, some 1, 1, 0,
          [(1, [("m", none)])],
          [⟨⟨"none_type", "x", [], [], "critical", 3/10, 1⟩, 1, 0, 0, 0⟩], ⟨1, 1, 0⟩⟩),
        (6, createLoopObject "x" ⟨["m"], 1000, [("m", 1)], "none_type", "low"⟩)],
       [("performance", 0), ("learning", 1), ("coordination", 2), ("memory", 3),
        ("innovation", 4), ("x", 6)],
       [("performance", performanceConfig.threshold), ("learning", learningConfig.threshold),
        ("coordination", coordinationConfig.threshold), ("memory", memoryConfig.threshold),
        ("innovation", innovationConfig.threshold), ("x", [("m", 1)])],
       false, ⟨0, 0, 0, 0, 0⟩, [], 7, 6⟩ := by
    simp [stop, stopLoop, heapGet, heapSet, List.lookup, createLoopObject,
      performanceConfig, learningConfig, coordinationConfig, memoryConfig, innovationConfig]
  have h6 := (executeLoop_counts [("m", 1)] (fun _ => 0) 1 2 ⟨0, 0, 0, 0, 0⟩ []
    ⟨"x", ⟨["m"], 1000, [("m", 1)], "none_type", "low"⟩, "active", some 5, some 1, 1, 0,
      [(1, [("m", none)])],
      [⟨⟨"none_type", "x", [], [], "critical", 3/10, 1⟩, 1, 0, 0, 0⟩], ⟨1, 1, 0⟩⟩).1
  simp only [h1, h2, h3, h4, h5]
  refine ⟨by trivial, ?_, ?_⟩
  · simp [heapGet, List.lookup]
  · simp [tick, heapGet, heapSet, List.lookup, List.find?, createLoopObject, h6,
      performanceConfig, learningConfig, coordinationConfig, memoryConfig, innovationConfig]

/-! ### `stop` cancels the timers of all registered loops -/

theorem lookup_eq_none_no_key {α β : Type} [BEq α] [LawfulBEq α]
    {h : List (α × β)} {k : α} (hn : List.lookup k h = none) :
    ∀ e ∈ h, e.1 ≠ k := by
  induction h with
  | nil => simp
  | cons a rest ih =>
    rw [List.lookup] at hn
    cases hk : k == a.1 with
    | true => rw [hk] at hn; simp at hn
    | false =>
      rw [hk] at hn
      intro e he
      rcases List.mem_cons.mp he with he | he
      · subst he
        intro hek
        rw [hek] at hk
        simp at hk
      · exact ih hn e he

theorem nodup_keys_lookup {α β : Type} [BEq α] [LawfulBEq α]
    {h : List (α × β)} (hnd : (h.map Prod.fst).Nodup) {e : α × β} (he : e ∈ h) :
    List.lookup e.1 h = some e.2 := by
  induction h with
  | nil => simp at he
  | cons a rest ih =>
    rw [List.map_cons, List.nodup_cons] at hnd
    rcases List.mem_cons.mp he with he | he
    · subst he
      simp [List.lookup]
    · have hne : e.1 ≠ a.1 := by
        intro hk
        exact hnd.1 (hk ▸ List.mem_map_of_mem Prod.fst he)
      rw [List.lookup]
      have : (e.1 == a.1) = false := by simpa using hne
      rw [this]
      exact ih hnd.2 he

theorem mem_heapSet {h : List (Nat × Loop)} {lid : Nat} {l : Loop} {e : Nat × Loop}
    (he : e ∈ heapSet h lid l) : e ∈ h ∨ e.2 = l := by
  unfold heapSet at he
  rw [List.mem_map] at he
  obtain ⟨a, ha, hfa⟩ := he
  by_cases hk : (a.1 == lid) = true
  · right
    rw [if_pos hk] at hfa
    rw [← hfa]
  · left
    rw [if_neg hk] at hfa
    rwa [← hfa]

theorem heapSet_key_val {h : List (Nat × Loop)} {lid : Nat} {l : Loop} {e : Nat × Loop}
    (he : e ∈ heapSet h lid l) (hk : e.1 = lid) : e.2 = l := by
  unfold heapSet at he
  rw [List.mem_map] at he
  obtain ⟨a, ha, hfa⟩ := he
  by_cases hak : (a.1 == lid) = true
  · rw [if_pos hak] at hfa
    rw [← hfa]
  · rw [if_neg hak] at hfa
    subst hfa
    exact absurd (by simpa using hk) hak

theorem heapSet_keys (h : List (Nat × Loop)) (lid : Nat) (l : Loop) :
    (heapSet h lid l).map Prod.fst = h.map Prod.fst := by
  induction h with
  | nil => rfl
  | cons a rest ih =>
    unfold heapSet at ih ⊢
    rw [List.map_cons, List.map_cons]
    by_cases hk : (a.1 == lid) = true
    · have ha : a.1 = lid := by simpa using hk
      rw [if_pos hk, List.map_cons, ih, ha]
    · rw [if_neg hk, List.map_cons, ih]

/-- The three ways `stopLoop` can behave. -/
theorem stopLoop_cases (s : SysState) (lid : Nat) :
    (heapGet s lid = none ∧ stopLoop s lid = s) ∨
    (∃ l, heapGet s lid = some l ∧ l.state = "inactive" ∧ stopLoop s lid = s) ∨
    (∃ l, heapGet s lid = some l ∧ stopLoop s lid =
      { s with heap := heapSet s.heap lid { l with state := "inactive", intervalId := none } }) := by
  unfold stopLoop
  cases hg : heapGet s lid with
  | none => exact Or.inl ⟨rfl, rfl⟩
  | some l =>
    by_cases hst : (l.state == "inactive") = true
    · exact Or.inr (Or.inl ⟨l, rfl, by simpa using hst, by simp [hst]⟩)
    · exact Or.inr (Or.inr ⟨l, rfl, by simp [hst]⟩)

theorem stopLoop_activeLoops (s : SysState) (lid : Nat) :
    (stopLoop s lid).activeLoops = s.activeLoops := by
  rcases stopLoop_cases s lid with ⟨_, h⟩ | ⟨l, _, _, h⟩ | ⟨l, _, h⟩ <;> rw [h]

theorem stopLoop_isRunning (s : SysState) (lid : Nat) :
    (stopLoop s lid).isRunning = s.isRunning := by
  rcases stopLoop_cases s lid with ⟨_, h⟩ | ⟨l, _, _, h⟩ | ⟨l, _, h⟩ <;> rw [h]

theorem stopLoop_keys (s : SysState) (lid : Nat) :
    (stopLoop s lid).heap.map Prod.fst = s.heap.map Prod.fst := by
  rcases stopLoop_cases s lid with ⟨_, h⟩ | ⟨l, _, _, h⟩ | ⟨l, _, h⟩ <;> rw [h]
  exact heapSet_keys _ _ _

theorem stopLoop_mem {s : SysState} {lid : Nat} {e : Nat × Loop}
    (he : e ∈ (stopLoop s lid).heap) : e ∈ s.heap ∨ e.2.intervalId = none := by
  rcases stopLoop_cases s lid with ⟨_, h⟩ | ⟨l, _, _, h⟩ | ⟨l, _, h⟩ <;> rw [h] at he
  · exact Or.inl he
  · exact Or.inl he
  · rcases mem_heapSet he with hm | hm
    · exact Or.inl hm
    · exact Or.inr (by rw [hm])

theorem stopLoop_timersActive {s : SysState} {lid : Nat}
    (hact : ∀ e ∈ s.heap, e.2.intervalId.isSome = true → e.2.state = "active") :
    ∀ e ∈ (stopLoop s lid).heap, e.2.intervalId.isSome = true → e.2.state = "active" := by
  intro e he hs
  rcases stopLoop_cases s lid with ⟨_, h⟩ | ⟨l, _, _, h⟩ | ⟨l, _, h⟩ <;> rw [h] at he
  · exact hact e he hs
  · exact hact e he hs
  · rcases mem_heapSet he with hm | hm
    · exact hact e hm hs
    · rw [hm] at hs
      simp at hs

/-- After `stopLoop s lid`, every heap entry keyed `lid` has no pending
timer (assuming live timers only on active loops, and unique keys). -/
theorem stopLoop_clears {s : SysState} {lid : Nat}
    (hact : ∀ e ∈ s.heap, e.2.intervalId.isSome = true → e.2.state = "active")
    (hnd : (s.heap.map Prod.fst).Nodup) :
    ∀ e ∈ (stopLoop s lid).heap, e.1 = lid → e.2.intervalId = none := by
  intro e he hk
  rcases stopLoop_cases s lid with ⟨hg, h⟩ | ⟨l, hg, hst, h⟩ | ⟨l, hg, h⟩ <;> rw [h] at he
  · exact absurd hk (lookup_eq_none_no_key hg e he)
  · have : List.lookup e.1 s.heap = some e.2 := nodup_keys_lookup hnd he
    rw [hk] at this
    rw [heapGet] at hg
    rw [hg] at this
    have hel : e.2 = l := by simpa using this.symm
    cases hi : e.2.intervalId with
    | none => rfl
    | some t =>
      have := hact e he (by rw [hi]; rfl)
      rw [hel, hst] at this
      simp at this
  · have : e.2 = { l with state := "inactive", intervalId := none } :=
      heapSet_key_val he hk
    rw [this]

/-- Folding `stopLoop` over a binding list cancels every pending timer,
provided each pending timer's loop is reachable through some binding. -/
theorem stopFold_clears :
    ∀ (bs : List (String × Nat)) (s : SysState),
      (∀ e ∈ s.heap, e.2.intervalId.isSome = true → ∃ b ∈ bs, b.2 = e.1) →
      (∀ e ∈ s.heap, e.2.intervalId.isSome = true → e.2.state = "active") →
      (s.heap.map Prod.fst).Nodup →
      ∀ e ∈ (bs.foldl (fun acc b => stopLoop acc b.2) s).heap, e.2.intervalId = none
  | [], s, hreg, hact, hnd => by
    intro e he
    cases hi : e.2.intervalId with
    | none => rfl
    | some t =>
      obtain ⟨b, hb, _⟩ := hreg e he (by rw [hi]; rfl)
      simp at hb
  | b :: bs, s, hreg, hact, hnd => by
    rw [List.foldl_cons]
    refine stopFold_clears bs (stopLoop s b.2) ?_ (stopLoop_timersActive hact) ?_
    · intro e he hs
      rcases stopLoop_mem he with hm | hm
      · obtain ⟨b', hb', hbe⟩ := hreg e hm hs
        rcases List.mem_cons.mp hb' with hb' | hb'
        · subst hb'
          have := stopLoop_clears hact hnd e he hbe.symm
          rw [this] at hs
          simp at hs
        · exact ⟨b', hb', hbe⟩
      · rw [hm] at hs
        simp at hs
    · rw [stopLoop_keys]
      exact hnd

/-- A timer fires only when some heap loop still holds its id: a state
with no pending timers never changes under `tick`. -/
theorem tick_noop (tid tStart tEnd : Nat) (rand : String → ℚ) (st : SysState)
    (hq : ∀ e ∈ st.heap, e.2.intervalId = none) :
    tick tid tStart tEnd rand st = st := by
  unfold tick
  cases hf : st.heap.find? (fun e => e.2.intervalId == some tid) with
  | none => rfl
  | some a =>
    have hp := List.find?_some hf
    have hmem := List.mem_of_find?_eq_some hf
    rw [hq a hmem] at hp
    simp at hp

theorem runTicks_noop (st : SysState)
    (hq : ∀ e ∈ st.heap, e.2.intervalId = none) :
    ∀ evs : List TickEvent, runTicks evs st = st
  | [] => rfl
  | e :: evs => by
    rw [runTicks, List.foldl_cons, tick_noop e.tid e.tStart e.tEnd e.rand st hq]
    exact runTicks_noop st hq evs

/-- C8 (amended): when the system is running and every pending timer
belongs to a loop that is still registered in `activeLoops` (which holds
unless an active loop was replaced by a duplicate registration — see the
counterexample), `stop()` synchronously cancels every pending timer, and
afterwards no tick can fire: the whole state — in particular every loop's
`executionCount` — is invariant under any sequence of timer events. -/
theorem c8_amended_stop_quiescence (st : SysState)
    (hrun : st.isRunning = true)
    (hnd : (st.heap.map Prod.fst).Nodup)
    (hact : ∀ e ∈ st.heap, e.2.intervalId.isSome = true → e.2.state = "active")
    (hreg : ∀ e ∈ st.heap, e.2.intervalId.isSome = true →
      ∃ b ∈ st.activeLoops, b.2 = e.1) :
    (∀ e ∈ (stop st).heap, e.2.intervalId = none) ∧
    (∀ evs : List TickEvent, runTicks evs (stop st) = stop st) := by
  have hstop : stop st =
      st.activeLoops.foldl (fun acc b => stopLoop acc b.2) { st with isRunning := false } := by
    rw [stop]
    simp [hrun]
  have hclear : ∀ e ∈ (stop st).heap, e.2.intervalId = none := by
    rw [hstop]
    exact stopFold_clears st.activeLoops { st with isRunning := false } hreg hact hnd
  exact ⟨hclear, runTicks_noop (stop st) hclear⟩

/-- Witness for C8 (amended) at a one-loop state with a pending timer. -/
theorem c8_amended_stop_quiescence_witness :
    ((⟨[(0, { createLoopObject "w" ⟨["m"], 1000, [("m", 1)], "none_type", "low"⟩ with
          state := "active", intervalId := some 7 })],
        [("w", 0)], [("w", [("m", 1)])], true, ⟨0, 0, 0, 0, 0⟩, [], 1, 8⟩ : SysState).isRunning
        = true ∧
      ((⟨[(0, { createLoopObject "w" ⟨["m"], 1000, [("m", 1)], "none_type", "low"⟩ with
          state := "active", intervalId := some 7 })],
        [("w", 0)], [("w", [("m", 1)])], true, ⟨0, 0, 0, 0, 0⟩, [], 1, 8⟩ : SysState).heap.map
          Prod.fst).Nodup ∧
      (∀ e ∈ (⟨[(0, { createLoopObject "w" ⟨["m"], 1000, [("m", 1)], "none_type", "low"⟩ with
          state := "active", intervalId := some 7 })],
        [("w", 0)], [("w", [("m", 1)])], true, ⟨0, 0, 0, 0, 0⟩, [], 1, 8⟩ : SysState).heap,
        e.2.intervalId.isSome = true → e.2.state = "active") ∧
      (∀ e ∈ (⟨[(0, { createLoopObject "w" ⟨["m"], 1000, [("m", 1)], "none_type", "low"⟩ with
          state := "active", intervalId := some 7 })],
        [("w", 0)], [("w", [("m", 1)])], true, ⟨0, 0, 0, 0, 0⟩, [], 1, 8⟩ : SysState).heap,
        e.2.intervalId.isSome = true →
          ∃ b ∈ (⟨[(0, { createLoopObject "w" ⟨["m"], 1000, [("m", 1)], "none_type", "low"⟩ with
              state := "active", intervalId := some 7 })],
            [("w", 0)], [("w", [("m", 1)])], true, ⟨0, 0, 0, 0, 0⟩, [], 1, 8⟩ : SysState).activeLoops,
            b.2 = e.1)) ∧
    ((∀ e ∈ (stop
        ⟨[(0, { createLoopObject "w" ⟨["m"], 1000, [("m", 1)], "none_type", "low"⟩ with
            state := "active", intervalId := some 7 })],
          [("w", 0)], [("w", [("m", 1)])], true, ⟨0, 0, 0, 0, 0⟩, [], 1, 8⟩).heap,
        e.2.intervalId = none) ∧
      (∀ evs : List TickEvent, runTicks evs (stop
        ⟨[(0, { createLoopObject "w" ⟨["m"], 1000, [("m", 1)], "none_type", "low"⟩ with
            state := "active", intervalId := some 7 })],
          [("w", 0)], [("w", [("m", 1)])], true, ⟨0, 0, 0, 0, 0⟩, [], 1, 8⟩) = stop
        ⟨[(0, { createLoopObject "w" ⟨["m"], 1000, [("m", 1)], "none_type", "low"⟩ with
            state := "active", intervalId := some 7 })],
          [("w", 0)], [("w", [("m", 1)])], true, ⟨0, 0, 0, 0, 0⟩, [], 1, 8⟩)) :=
  ⟨⟨rfl, by decide, by decide, by decide⟩,
    c8_amended_stop_quiescence _ rfl (by decide) (by decide) (by decide)⟩

end SwarmFeedbackLoops
